import Mathlib

/-!
# Task lifecycle controller of the Bonk browser agent dashboard

A shallow embedding of `frontend/src/hooks/useAgent.js`, followed by the parts
of the dashboard around it: the session viewer, the task route, the Solana
reads and wallet routes, the wallet hook, the key status route, the Steel
session service and the keyword dispatch of `executeBonkTask`.

The hook keeps eight `useState` cells.  Every asynchronous function of the hook
is a closure over the values of the render in which it was created, and every
setter overwrites one cell.  A function of the hook therefore becomes a Lean
function of

* `env`, the render snapshot the closure reads (`taskId`, `taskStatus`,
  `taskOutput`, `liveUrl` as the closure sees them),
* the gateway, an oracle giving the outcome of each awaited call, and
* the cell contents the setters write into,

returning the new cell contents, the value the JavaScript function returns and
the list of gateway calls it issued.  When a function is called from the
current render, `env` is the current state.
-/

namespace BonkAgent

/-! ## JavaScript values -/

/-- JavaScript truthiness of a string: every string but the empty one. -/
def truthy (s : String) : Bool := s != ""

/-- JavaScript truthiness of a value that is `null`/`undefined` or a string. -/
def truthyOpt : Option String → Bool
  | none => false
  | some s => truthy s

/-- Round a rational to the nearest integer, ties to the even neighbour. -/
def roundHalfEven (q : ℚ) : ℤ :=
  if q - ⌊q⌋ < 1 / 2 then ⌊q⌋
  else if 1 / 2 < q - ⌊q⌋ then ⌊q⌋ + 1
  else if ⌊q⌋ % 2 = 0 then ⌊q⌋ else ⌊q⌋ + 1

/-- The IEEE-754 binary64 value nearest to `q` (round to nearest, ties to even;
53 significant bits).  The exponent is not bounded: the numbers of this
development stay far inside the normal range. -/
def fl (q : ℚ) : ℚ :=
  if q = 0 then 0
  else roundHalfEven (q / (2 : ℚ) ^ (Int.log 2 |q| - 52)) * (2 : ℚ) ^ (Int.log 2 |q| - 52)

/-- JavaScript `a / b` on numbers. -/
def jsDiv (a b : ℚ) : ℚ := fl (a / b)

/-- JavaScript `a * b` on numbers. -/
def jsMul (a b : ℚ) : ℚ := fl (a * b)

/-! ## Data model -/

/-- One element of `taskDetails.steps`: the members the upstream reports, kept
as they are, and the `screenshot` member the hook writes. -/
structure Step where
  payload : List (String × String)
  screenshot : Option String
deriving DecidableEq, Repr

/-- The `useState` cells of `useAgent` (lines 13-20). -/
structure AgentState where
  taskId : Option String
  taskStatus : String
  taskProgress : ℚ
  taskSteps : List Step
  taskOutput : String
  liveUrl : String
  error : Option String
  isLoading : Bool
deriving DecidableEq, Repr

/-- The initial values of the cells (lines 13-20). -/
def initialState : AgentState :=
  { taskId := none, taskStatus := "idle", taskProgress := 0, taskSteps := [],
    taskOutput := "", liveUrl := "", error := none, isLoading := false }

/-! ## The gateway (`ApiService.tasks`) -/

/-- A rejected gateway call; `responseError` is `err.response?.data?.error`. -/
structure GatewayError where
  responseError : Option String
deriving DecidableEq, Repr

/-- Body of `POST /api/tasks`: the id and the other members. -/
structure CreateResponse where
  id : String
  rest : List (String × String)
deriving DecidableEq, Repr

/-- Body of `GET /api/tasks/:id`, the members the hook reads. -/
structure TaskDetails where
  live_url : Option String
  output : Option String
  steps : Option (List Step)
deriving DecidableEq, Repr

/-- Body of `GET /api/tasks/:id/screenshots` when it is an object. -/
structure ScreenshotsResponse where
  screenshots : Option (List String)
deriving DecidableEq, Repr

/-- A call issued to the gateway. -/
inductive Call where
  | create (task publicKey : String) (allowedDomains : List String) (llmModel : String)
  | get (taskId : String)
  | getStatus (taskId : String)
  | getScreenshots (taskId : String)
  | pause (taskId : String)
  | resume (taskId : String)
  | stop (taskId : String)
deriving DecidableEq, Repr

/-- The outcome of every gateway call an operation may await. -/
structure Gateway where
  create : String → String → List String → String → Except GatewayError CreateResponse
  get : String → Except GatewayError TaskDetails
  getStatus : String → Except GatewayError String
  getScreenshots : String → Except GatewayError (Option ScreenshotsResponse)
  pause : String → Except GatewayError Unit
  resume : String → Except GatewayError Unit
  stop : String → Except GatewayError Unit

/-- What an operation leaves behind: the cells, the returned value, the calls. -/
structure Outcome (α : Type) where
  state : AgentState
  result : α
  calls : List Call

/-! ## `fetchTaskStatus` (lines 42-98) -/

/-- Lines 66-70: `statusResponse === 'finished' ? 100 :
Math.min((steps.length / 20) * 100, 99)`.  The length of an array is below
2^32 and so is an exact number; the quotient and the product are rounded. -/
def progressOf (statusResponse : String) (n : ℕ) : ℚ :=
  if statusResponse = "finished" then 100
  else min (jsMul (jsDiv (n : ℚ) 20) 100) 99

/-- Lines 80-85: `steps.map((step, index) => (...step, screenshot: index <
shots.length ? shots[index] : null))`, with `index` starting at `i`. -/
def mergeFrom (shots : List String) : ℕ → List Step → List Step
  | _, [] => []
  | i, step :: rest => { step with screenshot := shots[i]? } :: mergeFrom shots (i + 1) rest

/-- Lines 80-85, the whole `map`. -/
def mergeScreenshots (steps : List Step) (shots : List String) : List Step :=
  mergeFrom shots 0 steps

/-- Lines 55-57. -/
def adoptLiveUrl (env : AgentState) (d : TaskDetails) (s : AgentState) : AgentState :=
  match d.live_url with
  | some u => if truthy u && !truthy env.liveUrl then { s with liveUrl := u } else s
  | none => s

/-- Lines 59-61. -/
def adoptOutput (env : AgentState) (d : TaskDetails) (s : AgentState) : AgentState :=
  match d.output with
  | some o => if truthy o && !truthy env.taskOutput then { s with taskOutput := o } else s
  | none => s

/-- Lines 64-71. -/
def adoptSteps (statusResponse : String) (d : TaskDetails) (s : AgentState) : AgentState :=
  match d.steps with
  | some steps =>
      { s with taskSteps := steps, taskProgress := progressOf statusResponse steps.length }
  | none => s

/-- Lines 74-92: the screenshot fetch and the positional merge. -/
def adoptScreenshots (gw : Gateway) (id : String) (d : TaskDetails) (s : AgentState) :
    AgentState × List Call :=
  match d.steps with
  | some steps =>
      if 0 < steps.length then
        match gw.getScreenshots id with
        | .ok (some r) =>
            match r.screenshots with
            | some shots => ({ s with taskSteps := mergeScreenshots steps shots },
                [Call.getScreenshots id])
            | none => (s, [Call.getScreenshots id])
        | .ok none => (s, [Call.getScreenshots id])
        | .error _ => (s, [Call.getScreenshots id])
      else (s, [])
  | none => (s, [])

/-- Line 50: the statuses for which the full detail is fetched. -/
def detailFetched (statusResponse : String) : Bool :=
  statusResponse == "running" || statusResponse == "finished" || statusResponse == "paused"

/-- Lines 42-98.  `env` is the render the closure was created in, `s` the cells
the setters write into. -/
def fetchTaskStatus (gw : Gateway) (env s : AgentState) : AgentState × List Call :=
  match env.taskId with
  | none => (s, [])
  | some id =>
    if truthy id then
      match gw.getStatus id with
      | .error _ =>
          ({ s with error := some "Failed to update task status" }, [Call.getStatus id])
      | .ok statusResponse =>
          if detailFetched statusResponse then
            match gw.get id with
            | .error _ =>
                ({ s with taskStatus := statusResponse,
                          error := some "Failed to update task status" },
                  [Call.getStatus id, Call.get id])
            | .ok d =>
                let r := adoptScreenshots gw id d
                  (adoptSteps statusResponse d
                    (adoptOutput env d
                      (adoptLiveUrl env d { s with taskStatus := statusResponse })))
                (r.1, [Call.getStatus id, Call.get id] ++ r.2)
          else ({ s with taskStatus := statusResponse }, [Call.getStatus id])
    else (s, [])

/-- Line 24: the effect installs the interval exactly when this holds. -/
def pollingActive (s : AgentState) : Bool :=
  truthyOpt s.taskId && (s.taskStatus == "running" || s.taskStatus == "paused")

/-! ## `startTask` (lines 107-145) -/

/-- Line 139: `err.response?.data?.error || 'Failed to start task'`. -/
def startErrorMessage (err : GatewayError) : String :=
  match err.responseError with
  | some m => if truthy m then m else "Failed to start task"
  | none => "Failed to start task"

/-- Lines 107-145, called from the render whose cells are `s`; `publicKey` is
the connected wallet, if any. -/
def startTask (publicKey : Option String) (gw : Gateway) (s : AgentState)
    (taskDescription : String) (allowedDomains : List String) (llmModel : String) :
    Outcome (Option CreateResponse) :=
  match publicKey with
  | none =>
      { state := { s with error := some "Please connect your wallet first" },
        result := none, calls := [] }
  | some pk =>
      let s0 : AgentState :=
        { s with isLoading := true, error := none, taskId := none, taskStatus := "idle",
                 taskProgress := 0, taskSteps := [], taskOutput := "", liveUrl := "" }
      match gw.create taskDescription pk allowedDomains llmModel with
      | .ok response =>
          let r := fetchTaskStatus gw s
            { s0 with taskId := some response.id, taskStatus := "running" }
          { state := { r.1 with isLoading := false },
            result := some response,
            calls := Call.create taskDescription pk allowedDomains llmModel :: r.2 }
      | .error err =>
          { state := { s0 with error := some (startErrorMessage err),
                               taskStatus := "failed", isLoading := false },
            result := none,
            calls := [Call.create taskDescription pk allowedDomains llmModel] }

/-! ## `pauseTask`, `resumeTask`, `stopTask`, `resetAgent` (lines 151-219) -/

/-- Lines 151-165. -/
def pauseTask (gw : Gateway) (s : AgentState) : Outcome Bool :=
  match s.taskId with
  | none => { state := s, result := false, calls := [] }
  | some id =>
    if !truthy id || s.taskStatus != "running" then
      { state := s, result := false, calls := [] }
    else
      match gw.pause id with
      | .ok _ => { state := { s with taskStatus := "paused" }, result := true,
                   calls := [Call.pause id] }
      | .error _ => { state := { s with error := some "Failed to pause task" },
                      result := false, calls := [Call.pause id] }

/-- Lines 171-185. -/
def resumeTask (gw : Gateway) (s : AgentState) : Outcome Bool :=
  match s.taskId with
  | none => { state := s, result := false, calls := [] }
  | some id =>
    if !truthy id || s.taskStatus != "paused" then
      { state := s, result := false, calls := [] }
    else
      match gw.resume id with
      | .ok _ => { state := { s with taskStatus := "running" }, result := true,
                   calls := [Call.resume id] }
      | .error _ => { state := { s with error := some "Failed to resume task" },
                      result := false, calls := [Call.resume id] }

/-- Lines 191-206. -/
def stopTask (gw : Gateway) (s : AgentState) : Outcome Bool :=
  match s.taskId with
  | none => { state := s, result := false, calls := [] }
  | some id =>
    if !truthy id || (s.taskStatus != "running" && s.taskStatus != "paused") then
      { state := s, result := false, calls := [] }
    else
      match gw.stop id with
      | .ok _ => { state := { s with taskStatus := "idle", liveUrl := "" }, result := true,
                   calls := [Call.stop id] }
      | .error _ => { state := { s with error := some "Failed to stop task" },
                      result := false, calls := [Call.stop id] }

/-- Lines 211-219. -/
def resetAgent (s : AgentState) : AgentState :=
  { s with taskId := none, taskStatus := "idle", taskProgress := 0, taskSteps := [],
           taskOutput := "", liveUrl := "", error := none }


/-! ## Fixtures: concrete gateways and states -/

/-- A gateway whose create returns id `t1` and whose probes answer with the
given status, detail and screenshots; pause, resume and stop succeed. -/
def scenarioGateway (status : String) (d : TaskDetails)
    (shots : Except GatewayError (Option ScreenshotsResponse)) : Gateway :=
  { create := fun _ _ _ _ => .ok { id := "t1", rest := [] },
    get := fun _ => .ok d,
    getStatus := fun _ => .ok status,
    getScreenshots := fun _ => shots,
    pause := fun _ => .ok (),
    resume := fun _ => .ok (),
    stop := fun _ => .ok () }

/-- A detail response with no member set. -/
def emptyDetails : TaskDetails := { live_url := none, output := none, steps := none }

/-- A gateway that answers `running` and an empty detail. -/
def quietGateway : Gateway :=
  scenarioGateway "running" emptyDetails (.ok none)

/-- The cells right after task `t1` was started. -/
def runningState : AgentState :=
  { initialState with taskId := some "t1", taskStatus := "running" }

/-- A gateway answering `finished` with output `done` (scenario B). -/
def finishedGateway : Gateway :=
  scenarioGateway "finished" { emptyDetails with output := some "done" } (.ok none)

/-- A gateway whose status probe answers `failed`. -/
def failedGateway : Gateway :=
  scenarioGateway "failed" emptyDetails (.ok none)

/-- A step with one member `action` and no screenshot. -/
def stepNamed (action : String) : Step :=
  { payload := [("action", action)], screenshot := none }

/-- The running task `t1` holding two steps. -/
def twoStepState : AgentState :=
  { runningState with taskSteps := [stepNamed "open", stepNamed "click"],
                      taskProgress := 10 }

/-- A gateway answering `running` with a detail that lists one other step and
no screenshots object. -/
def oneStepGateway : Gateway :=
  scenarioGateway "running" { emptyDetails with steps := some [stepNamed "type"] } (.ok none)

/-- A gateway answering `running` with a detail that lists eleven steps. -/
def elevenStepGateway : Gateway :=
  scenarioGateway "running"
    { emptyDetails with steps := some (List.replicate 11 (stepNamed "scroll")) } (.ok none)

/-- A gateway answering `running` with a detail that lists three steps and no
output (scenario A). -/
def threeStepGateway : Gateway :=
  scenarioGateway "running"
    { emptyDetails with steps := some (List.replicate 3 (stepNamed "scroll")) } (.ok none)

/-! ## Reachable states -/

/-- The cells the hook can hold: the initial cells, closed under the operations
of the hook, each run to completion from the current render before the next
one begins (a response that arrives after a later command is not covered).
The gateway is taken to assign non-empty ids.  A tick reads the task id of the
current cells; its view of `taskOutput` and `liveUrl` may be older, so `env` is
otherwise free. -/
inductive Reachable : AgentState → Prop where
  | init : Reachable initialState
  | start (publicKey : Option String) (gw : Gateway) (taskDescription : String)
      (allowedDomains : List String) (llmModel : String) {s : AgentState} :
      Reachable s →
      (∀ pk r, publicKey = some pk →
        gw.create taskDescription pk allowedDomains llmModel = .ok r → truthy r.id = true) →
      Reachable (startTask publicKey gw s taskDescription allowedDomains llmModel).state
  | tick (gw : Gateway) (env : AgentState) {s : AgentState} :
      Reachable s → env.taskId = s.taskId → Reachable (fetchTaskStatus gw env s).1
  | pause (gw : Gateway) {s : AgentState} : Reachable s → Reachable (pauseTask gw s).state
  | resume (gw : Gateway) {s : AgentState} : Reachable s → Reachable (resumeTask gw s).state
  | stop (gw : Gateway) {s : AgentState} : Reachable s → Reachable (stopTask gw s).state
  | reset {s : AgentState} : Reachable s → Reachable (resetAgent s)

/-- The cells after `t1` was started and then stopped. -/
def stoppedState : AgentState :=
  (stopTask quietGateway
    (startTask (some "wallet") quietGateway initialState "find empty accounts" []
      "model-x").state).state

/-- A gateway that rejects every call. -/
def downGateway : Gateway :=
  { create := fun _ _ _ _ => .error { responseError := none },
    get := fun _ => .error { responseError := none },
    getStatus := fun _ => .error { responseError := none },
    getScreenshots := fun _ => .error { responseError := none },
    pause := fun _ => .error { responseError := none },
    resume := fun _ => .error { responseError := none },
    stop := fun _ => .error { responseError := none } }

/-- The cells after a `startTask` whose create call was rejected. -/
def failedStartState : AgentState :=
  (startTask (some "wallet") downGateway initialState "find empty accounts" []
    "model-x").state

/-! ## The session viewer (`browserbasesessionviewer.jsx`, lines 39-78) -/

/-- The `useState` cells of `BrowserbaseSessionViewer` (lines 41-48); the
session, recording and log objects are kept as opaque text. -/
structure ViewerState where
  isLoading : Bool
  error : Option String
  session : Option String
  viewerUrl : String
  isFullscreen : Bool
  recordingData : Option String
  taskLogs : List String
  activeTab : String
deriving DecidableEq, Repr

/-- The `data` member of a window message: a string or some other value. -/
inductive MessageData where
  | text (s : String)
  | other (description : String)
deriving DecidableEq, Repr

/-- Lines 64-70: `handleMessage`, the listener the viewer registers. -/
def handleMessage (data : MessageData) (v : ViewerState) : ViewerState :=
  if data = MessageData.text "browserbase-disconnected" then
    { v with error := some "Browser session disconnected. The session may have ended." }
  else v

/-- The cells of the controller hook next to the cells of the viewer. -/
structure Dashboard where
  agent : AgentState
  viewer : ViewerState
deriving DecidableEq, Repr

/-- A window message reaches the only listener there is, `handleMessage`; the
hook registers none. -/
def dashboardOnMessage (data : MessageData) (d : Dashboard) : Dashboard :=
  { d with viewer := handleMessage data d.viewer }

/-- A viewer showing the live tab with no error. -/
def liveViewer : ViewerState :=
  { isLoading := false, error := none, session := none, viewerUrl := "live-1",
    isFullscreen := false, recordingData := none, taskLogs := [], activeTab := "live" }

/-! ## `POST /tasks` (`backend/src/routes/tasks.js`, lines 7-56) -/

/-- Lines 8-17. -/
def DEFAULT_ALLOWED_DOMAINS : List String :=
  ["solana.com", "solscan.io", "solflare.com", "phantom.app", "bonkbutton.com",
   "letsbonk.fun", "birdeye.so", "dexscreener.com"]

/-- `Set.prototype.add` on the insertion-ordered elements of a set. -/
def setAdd (acc : List String) (x : String) : List String :=
  if x ∈ acc then acc else acc ++ [x]

/-- The elements of `new Set(xs)` in iteration order, as `[...new Set(xs)]`
lists them. -/
def newSet (xs : List String) : List String :=
  xs.foldl setAdd []

/-- Line 35: `[...new Set([...DEFAULT_ALLOWED_DOMAINS, ...allowedDomains])]`. -/
def mergedDomains (allowedDomains : List String) : List String :=
  newSet (DEFAULT_ALLOWED_DOMAINS ++ allowedDomains)

/-- A member of the JSON object `req.body`: not sent (`undefined`), `null`, a
boolean, a number, a string, an array (of strings), or an object (kept as
text). -/
inductive BodyMember where
  | absent
  | null
  | bool (b : Bool)
  | number (n : ℚ)
  | text (s : String)
  | list (items : List String)
  | object (json : String)
deriving DecidableEq, Repr

/-- JavaScript truthiness of a member. -/
def memberTruthy : BodyMember → Bool
  | .absent => false
  | .null => false
  | .bool b => b
  | .number n => n != 0
  | .text s => truthy s
  | .list _ => true
  | .object _ => true

/-- A destructuring default `member = dflt`: it applies to `undefined` only. -/
def orDefault (member dflt : BodyMember) : BodyMember :=
  match member with
  | .absent => dflt
  | v => v

/-- The elements `...member` yields in an array literal: those of an array, the
characters of a string; `none` when the engine throws a TypeError because the
value is not iterable (`undefined`, `null`, a boolean, a number, an object). -/
def spreadMember : BodyMember → Option (List String)
  | .list items => some items
  | .text s => some (s.data.map String.singleton)
  | _ => none

/-- The members of `req.body` the route destructures (lines 22-28). -/
structure TaskRequestBody where
  task : BodyMember
  walletAddress : BodyMember
  allowedDomains : BodyMember
  structuredOutputJson : BodyMember
  llmModel : BodyMember
deriving DecidableEq, Repr

/-- An error thrown by `BrowserUseService.createTask`: `error.response.data`
when there is a response, and `error.message`. -/
structure ServiceError where
  responseData : Option String
  message : String
deriving DecidableEq, Repr

/-- The arguments of one `BrowserUseService.createTask` call (lines 40-46). -/
structure CreateTaskCall where
  task : BodyMember
  allowedDomains : List String
  secrets : List (String × BodyMember)
  structuredOutputJson : BodyMember
  llmModel : BodyMember
deriving DecidableEq, Repr

/-- The `details` member of an error body: none, `error.response.data`,
`error.message` of a service error, or the message of the TypeError the engine
throws for a spread of a value that is not iterable. -/
inductive ErrorDetails where
  | absent
  | responseData (data : String)
  | message (text : String)
  | notIterableMessage
deriving DecidableEq, Repr

/-- What the route sends. -/
inductive RouteBody where
  | result (json : String)
  | failure (error : String) (details : ErrorDetails)
deriving DecidableEq, Repr

/-- Status code and body of the response. -/
structure RouteResponse where
  status : ℕ
  body : RouteBody
deriving DecidableEq, Repr

/-- Lines 37-46: the secrets and the arguments of the `createTask` call, given
the elements the spread of `allowedDomains` yielded. -/
def createTaskArguments (body : TaskRequestBody) (domains : List String) : CreateTaskCall :=
  { task := body.task,
    allowedDomains := mergedDomains domains,
    secrets :=
      if memberTruthy body.walletAddress then [("wallet_address", body.walletAddress)]
      else [],
    structuredOutputJson := orDefault body.structuredOutputJson .null,
    llmModel := orDefault body.llmModel (.text "gpt-4o") }

/-- Lines 20-56: the handler of `POST /`, given the outcome of the service
call; it returns the response and the service calls it made.  The spread at
line 35 throws inside the `try` when `allowedDomains` is not iterable. -/
def postTasks (createTask : CreateTaskCall → Except ServiceError String)
    (body : TaskRequestBody) : RouteResponse × List CreateTaskCall :=
  if memberTruthy body.task then
    match spreadMember (orDefault body.allowedDomains (.list [])) with
    | none =>
        ({ status := 500,
           body := .failure "Failed to create task" ErrorDetails.notIterableMessage }, [])
    | some domains =>
        match createTask (createTaskArguments body domains) with
        | .ok result =>
            ({ status := 200, body := .result result }, [createTaskArguments body domains])
        | .error err =>
            ({ status := 500,
               body := .failure "Failed to create task"
                 (match err.responseData with
                  | some data => ErrorDetails.responseData data
                  | none => ErrorDetails.message err.message) },
              [createTaskArguments body domains])
  else
    ({ status := 400,
       body := .failure "Task description is required" ErrorDetails.absent }, [])

/-! ## More fixtures -/

/-- A request body naming one default domain and one new domain. -/
def priceRequest : TaskRequestBody :=
  { task := .text "check prices", walletAddress := .absent,
    allowedDomains := .list ["birdeye.so", "example.org"],
    structuredOutputJson := .absent, llmModel := .absent }

/-- The service call `POST /tasks` makes for `priceRequest`. -/
def priceCall : CreateTaskCall :=
  { task := .text "check prices",
    allowedDomains := mergedDomains ["birdeye.so", "example.org"],
    secrets := [], structuredOutputJson := .null, llmModel := .text "gpt-4o" }

/-- A gateway answering `running` with the given live URL and output. -/
def liveGateway (url output : String) : Gateway :=
  scenarioGateway "running" { emptyDetails with live_url := some url, output := some output }
    (.ok none)

/-- A gateway answering `paused` whose detail fetch is rejected. -/
def noDetailGateway : Gateway :=
  { scenarioGateway "paused" emptyDetails (.ok none) with
    get := fun _ => .error { responseError := none } }

/-- A gateway answering `running` with one step while the screenshot fetch is
rejected. -/
def noScreenshotGateway : Gateway :=
  scenarioGateway "running" { emptyDetails with steps := some [stepNamed "type"] }
    (.error { responseError := none })

/-- The running task `t1` after a rejected command left an error. -/
def erroredState : AgentState :=
  { runningState with error := some "Failed to pause task" }

/-! ## Keyword tests on task texts -/

/-- Whether the characters `t` occur as a contiguous run in `s`. -/
def includesChars (s t : List Char) : Bool :=
  match s with
  | [] => t.isPrefixOf []
  | c :: rest => t.isPrefixOf (c :: rest) || includesChars rest t

/-- JavaScript `s.includes(t)`. -/
def includes (s t : String) : Bool := includesChars s.data t.data

/-! ## `executeBonkTask` (`backend/src/services/browserbaseservice.js`, lines 212-228) -/

/-- The handlers `executeBonkTask` chooses between. -/
inductive BonkHandler where
  | handleTokenAccountCleanup
  | handleBonkBurning
  | handleTokenLaunch
  | handleWalletAnalysis
  | handleGenericTask
deriving DecidableEq, Repr

/-- Lines 212-228: the handler the keyword rules of `executeBonkTask` choose. -/
def executeBonkTaskHandler (task : String) : BonkHandler :=
  if includes task "clean" || includes task "empty account" then
    BonkHandler.handleTokenAccountCleanup
  else if includes task "burn" || includes task "BONK" then
    BonkHandler.handleBonkBurning
  else if includes task "launch" || includes task "token" then
    BonkHandler.handleTokenLaunch
  else if includes task "analyze" || includes task "wallet" then
    BonkHandler.handleWalletAnalysis
  else BonkHandler.handleGenericTask

/-- One entry of `predefinedTasks` (`StagehandControlPanel.jsx`, lines 35-40). -/
structure PredefinedTask where
  label : String
  value : String
  url : String
deriving DecidableEq, Repr

/-- `StagehandControlPanel.jsx`, lines 35-40. -/
def predefinedTasks : List PredefinedTask :=
  [ { label := "Clean Token Accounts",
      value := "Scan my wallet for empty token accounts and close them to recover SOL",
      url := "https://solscan.io" },
    { label := "Find BONK Stats",
      value := "Go to Birdeye.so and check the latest market data for BONK token",
      url := "https://birdeye.so" },
    { label := "Launch Token",
      value := "Go to letsbonk.fun and help me launch a new token",
      url := "https://letsbonk.fun" },
    { label := "Analyze Wallet",
      value := "Analyze my wallet tokens and provide recommendations",
      url := "https://solscan.io" } ]

/-! ## `handleStartTask` of the control panel (`controlpanel.jsx`, lines 70-90) -/

/-- Lines 76-87: the domain list `handleStartTask` builds from the task text. -/
def panelAllowedDomains (taskInput : String) : List String :=
  (if includes taskInput "letsbonk.fun" || includes taskInput "launch token" then
    ["letsbonk.fun"] else []) ++
  (if includes taskInput "birdeye" || includes taskInput "price" ||
      includes taskInput "stats" then
    ["birdeye.so", "dexscreener.com"] else [])

/-- The body `ApiService.tasks.create` posts for a task started from the panel
(`api.js`, lines 57-64): task text, wallet, derived domains, chosen model. -/
def panelRequestBody (taskInput wallet selectedModel : String) : TaskRequestBody :=
  { task := .text taskInput, walletAddress := .text wallet,
    allowedDomains := .list (panelAllowedDomains taskInput),
    structuredOutputJson := .absent, llmModel := .text selectedModel }

/-! ## Solana reads (`backend/src/services/solanaservice.js`,
`frontend/src/services/solana.js`) -/

/-- One element of `tokenAccounts.value` as the RPC node reports it: `pubkey`
and the members of `account.data.parsed.info` the services read; `uiAmount`
may be `null`. -/
structure ParsedAccount where
  pubkey : String
  mint : String
  owner : String
  uiAmount : Option ℚ
  decimals : ℕ
  uiAmountString : String
deriving DecidableEq, Repr

/-- A token account as the services return it. -/
structure TokenAccount where
  address : String
  mint : String
  owner : String
  amount : Option ℚ
  decimals : ℕ
  uiAmountString : String
deriving DecidableEq, Repr

/-- The object built in the `map` of `getTokenAccounts`. -/
def formatTokenAccount (p : ParsedAccount) : TokenAccount :=
  { address := p.pubkey, mint := p.mint, owner := p.owner, amount := p.uiAmount,
    decimals := p.decimals, uiAmountString := p.uiAmountString }

/-- A rejected RPC call. -/
structure RpcError where
  message : String
deriving DecidableEq, Repr

/-- The answers of the RPC node (`connection`). -/
structure Rpc where
  getBalance : String → Except RpcError ℕ
  getParsedTokenAccountsByOwner : String → Except RpcError (List ParsedAccount)

/-- A call issued to the RPC node. -/
inductive RpcCall where
  | getBalance (address : String)
  | getParsedTokenAccountsByOwner (address : String)
deriving DecidableEq, Repr

/-- Why a read failed: `new PublicKey(..)` threw, or the RPC call was
rejected. -/
inductive SolanaError where
  | invalidPublicKey
  | rpc (e : RpcError)
deriving DecidableEq, Repr

/-- The BONK mint, `BONK_TOKEN_ADDRESS`. -/
def BONK_TOKEN_ADDRESS : String := "DezXAZ8z7PnrnRJjz3wXBoRgixCa6xjnB7YaB1pPB263"

/-- The number the literal `0.002` denotes. -/
def rentPerAccount : ℚ := fl (2 / 1000)

/-- `allAccounts.filter(account => account.amount === 0)`. -/
def filterEmpty (allAccounts : List TokenAccount) : List TokenAccount :=
  allAccounts.filter (fun account => account.amount == some 0)

/-- `allAccounts.find(account => account.mint === BONK)` followed by
`bonkAccount ? bonkAccount.amount : 0`. -/
def bonkAmount (allAccounts : List TokenAccount) : Option ℚ :=
  match allAccounts.find? (fun account => account.mint == BONK_TOKEN_ADDRESS) with
  | some bonkAccount => bonkAccount.amount
  | none => some 0

/-- `emptyAccounts.length * 0.002`. -/
def reclaimable (emptyAccounts : List TokenAccount) : ℚ :=
  jsMul (emptyAccounts.length : ℚ) rentPerAccount

namespace Backend

/-- Lines 23-32 of `solanaservice.js`.  `validKey` tells whether
`new PublicKey(walletAddress)` succeeds. -/
def getSolBalance (validKey : String → Bool) (rpc : Rpc) (walletAddress : String) :
    Except SolanaError ℚ × List RpcCall :=
  if validKey walletAddress then
    match rpc.getBalance walletAddress with
    | .ok balance => (.ok (jsDiv (fl (balance : ℚ)) 1000000000), [RpcCall.getBalance walletAddress])
    | .error e => (.error (SolanaError.rpc e), [RpcCall.getBalance walletAddress])
  else (.error SolanaError.invalidPublicKey, [])

/-- Lines 39-65 of `solanaservice.js`. -/
def getTokenAccounts (validKey : String → Bool) (rpc : Rpc) (walletAddress : String) :
    Except SolanaError (List TokenAccount) × List RpcCall :=
  if validKey walletAddress then
    match rpc.getParsedTokenAccountsByOwner walletAddress with
    | .ok value => (.ok (value.map formatTokenAccount),
        [RpcCall.getParsedTokenAccountsByOwner walletAddress])
    | .error e => (.error (SolanaError.rpc e),
        [RpcCall.getParsedTokenAccountsByOwner walletAddress])
  else (.error SolanaError.invalidPublicKey, [])

/-- Lines 72-82 of `solanaservice.js`. -/
def getEmptyTokenAccounts (validKey : String → Bool) (rpc : Rpc) (walletAddress : String) :
    Except SolanaError (List TokenAccount) × List RpcCall :=
  match getTokenAccounts validKey rpc walletAddress with
  | (.ok allAccounts, calls) => (.ok (filterEmpty allAccounts), calls)
  | (.error e, calls) => (.error e, calls)

/-- Lines 89-103 of `solanaservice.js`. -/
def getBonkBalance (validKey : String → Bool) (rpc : Rpc) (walletAddress : String) :
    Except SolanaError (Option ℚ) × List RpcCall :=
  match getTokenAccounts validKey rpc walletAddress with
  | (.ok allAccounts, calls) => (.ok (bonkAmount allAccounts), calls)
  | (.error e, calls) => (.error e, calls)

/-- Lines 110-120 of `solanaservice.js`. -/
def estimateReclaimableSol (validKey : String → Bool) (rpc : Rpc) (walletAddress : String) :
    Except SolanaError ℚ × List RpcCall :=
  match getEmptyTokenAccounts validKey rpc walletAddress with
  | (.ok emptyAccounts, calls) => (.ok (reclaimable emptyAccounts), calls)
  | (.error e, calls) => (.error e, calls)

end Backend

namespace Frontend

/-- Lines 38-60 of `solana.js`; `publicKey` is a `PublicKey` object, given by
its text. -/
def getTokenAccounts (rpc : Rpc) (publicKey : String) :
    Except RpcError (List TokenAccount) × List RpcCall :=
  match rpc.getParsedTokenAccountsByOwner publicKey with
  | .ok value => (.ok (value.map formatTokenAccount),
      [RpcCall.getParsedTokenAccountsByOwner publicKey])
  | .error e => (.error e, [RpcCall.getParsedTokenAccountsByOwner publicKey])

/-- Lines 68-76 of `solana.js`. -/
def getEmptyAccounts (rpc : Rpc) (publicKey : String) :
    Except RpcError (List TokenAccount) × List RpcCall :=
  match getTokenAccounts rpc publicKey with
  | (.ok allAccounts, calls) => (.ok (filterEmpty allAccounts), calls)
  | (.error e, calls) => (.error e, calls)

/-- Lines 83-96 of `solana.js`. -/
def getBonkBalance (rpc : Rpc) (publicKey : String) :
    Except RpcError (Option ℚ) × List RpcCall :=
  match getTokenAccounts rpc publicKey with
  | (.ok allAccounts, calls) => (.ok (bonkAmount allAccounts), calls)
  | (.error e, calls) => (.error e, calls)

/-- Lines 103-111 of `solana.js`. -/
def estimateReclaimableSol (rpc : Rpc) (publicKey : String) :
    Except RpcError ℚ × List RpcCall :=
  match getEmptyAccounts rpc publicKey with
  | (.ok emptyAccounts, calls) => (.ok (reclaimable emptyAccounts), calls)
  | (.error e, calls) => (.error e, calls)

end Frontend

/-! ## The wallet routes (`backend/src/routes/solana.js`) -/

/-- The operations of the Solana service. -/
inductive SolanaOp where
  | getSolBalance (address : String)
  | getTokenAccounts (address : String)
  | getEmptyTokenAccounts (address : String)
  | getBonkBalance (address : String)
  | estimateReclaimableSol (address : String)
deriving DecidableEq, Repr

/-- The JSON bodies the wallet routes send. -/
inductive WalletBody where
  | balance (address : String) (balance : ℚ)
  | tokens (address : String) (tokens : List TokenAccount)
  | emptyAccounts (address : String) (emptyAccounts : List TokenAccount) (count : ℕ)
      (reclaimableSol : ℚ)
  | bonk (address : String) (bonkBalance : Option ℚ)
  | failure (error : String)
deriving DecidableEq, Repr

/-- What a wallet route does: the response, the service operations it invoked
and the RPC calls these issued. -/
structure RouteRun where
  status : ℕ
  body : WalletBody
  ops : List SolanaOp
  rpcCalls : List RpcCall
deriving DecidableEq, Repr

/-- Lines 9-19: the response of `validateWalletAddress` when the check fails. -/
def invalidWalletAddress : RouteRun :=
  { status := 400, body := .failure "Invalid wallet address", ops := [], rpcCalls := [] }

/-- Lines 22-31: `GET /balance/:walletAddress`. -/
def balanceRoute (validKey : String → Bool) (rpc : Rpc) (walletAddress : String) : RouteRun :=
  if validKey walletAddress then
    match Backend.getSolBalance validKey rpc walletAddress with
    | (.ok balance, calls) =>
        { status := 200, body := .balance walletAddress balance,
          ops := [.getSolBalance walletAddress], rpcCalls := calls }
    | (.error _, calls) =>
        { status := 500, body := .failure "Failed to get SOL balance",
          ops := [.getSolBalance walletAddress], rpcCalls := calls }
  else invalidWalletAddress

/-- Lines 34-43: `GET /tokens/:walletAddress`. -/
def tokensRoute (validKey : String → Bool) (rpc : Rpc) (walletAddress : String) : RouteRun :=
  if validKey walletAddress then
    match Backend.getTokenAccounts validKey rpc walletAddress with
    | (.ok tokens, calls) =>
        { status := 200, body := .tokens walletAddress tokens,
          ops := [.getTokenAccounts walletAddress], rpcCalls := calls }
    | (.error _, calls) =>
        { status := 500, body := .failure "Failed to get token accounts",
          ops := [.getTokenAccounts walletAddress], rpcCalls := calls }
  else invalidWalletAddress

/-- Lines 46-62: `GET /empty-accounts/:walletAddress`. -/
def emptyAccountsRoute (validKey : String → Bool) (rpc : Rpc) (walletAddress : String) :
    RouteRun :=
  if validKey walletAddress then
    match Backend.getEmptyTokenAccounts validKey rpc walletAddress with
    | (.ok emptyAccounts, calls) =>
        match Backend.estimateReclaimableSol validKey rpc walletAddress with
        | (.ok reclaimableSol, calls2) =>
            { status := 200,
              body := .emptyAccounts walletAddress emptyAccounts emptyAccounts.length
                reclaimableSol,
              ops := [.getEmptyTokenAccounts walletAddress,
                .estimateReclaimableSol walletAddress],
              rpcCalls := calls ++ calls2 }
        | (.error _, calls2) =>
            { status := 500, body := .failure "Failed to get empty token accounts",
              ops := [.getEmptyTokenAccounts walletAddress,
                .estimateReclaimableSol walletAddress],
              rpcCalls := calls ++ calls2 }
    | (.error _, calls) =>
        { status := 500, body := .failure "Failed to get empty token accounts",
          ops := [.getEmptyTokenAccounts walletAddress], rpcCalls := calls }
  else invalidWalletAddress

/-- Lines 65-74: `GET /bonk/:walletAddress`. -/
def bonkRoute (validKey : String → Bool) (rpc : Rpc) (walletAddress : String) : RouteRun :=
  if validKey walletAddress then
    match Backend.getBonkBalance validKey rpc walletAddress with
    | (.ok bonkBalance, calls) =>
        { status := 200, body := .bonk walletAddress bonkBalance,
          ops := [.getBonkBalance walletAddress], rpcCalls := calls }
    | (.error _, calls) =>
        { status := 500, body := .failure "Failed to get BONK balance",
          ops := [.getBonkBalance walletAddress], rpcCalls := calls }
  else invalidWalletAddress

/-! ## The wallet hook (`frontend/src/hooks/useWalletTokens.js`) -/

/-- The `useState` cells of `useWalletTokens` (lines 13-19). -/
structure WalletState where
  solBalance : ℚ
  bonkBalance : Option ℚ
  tokenAccounts : List TokenAccount
  emptyAccounts : List TokenAccount
  reclaimableSol : ℚ
  isLoading : Bool
  error : Option String
deriving DecidableEq, Repr

/-- The initial cells (lines 13-19). -/
def initialWallet : WalletState :=
  { solBalance := 0, bonkBalance := some 0, tokenAccounts := [], emptyAccounts := [],
    reclaimableSol := 0, isLoading := false, error := none }

/-- The outcomes of the four reads of one refresh, in the order they are
awaited. -/
structure WalletReads where
  getSolBalance : Except RpcError ℚ
  getTokenAccounts : Except RpcError (List TokenAccount)
  getBonkBalance : Except RpcError (Option ℚ)
  getEmptyAccounts : Except RpcError (List TokenAccount)

/-- The `catch` and `finally` blocks (lines 55-60, 95-100). -/
def refreshFailed (e : RpcError) (s : WalletState) : WalletState :=
  { s with error := some e.message, isLoading := false }

/-- Lines 34-61: `fetchWalletData`. -/
def fetchWalletData (reads : WalletReads) (s : WalletState) : WalletState :=
  let s0 : WalletState := { s with isLoading := true, error := none }
  match reads.getSolBalance with
  | .error e => refreshFailed e s0
  | .ok balance =>
    let s1 : WalletState := { s0 with solBalance := balance }
    match reads.getTokenAccounts with
    | .error e => refreshFailed e s1
    | .ok accounts =>
      let s2 : WalletState := { s1 with tokenAccounts := accounts }
      match reads.getBonkBalance with
      | .error e => refreshFailed e s2
      | .ok bonk =>
        let s3 : WalletState := { s2 with bonkBalance := bonk }
        match reads.getEmptyAccounts with
        | .error e => refreshFailed e s3
        | .ok empty =>
            { s3 with emptyAccounts := empty, reclaimableSol := reclaimable empty,
                      isLoading := false }

/-- Lines 72-101: `refreshData`, whose body after the wallet check is that of
`fetchWalletData`. -/
def refreshData (publicKey : Option String) (reads : WalletReads) (s : WalletState) :
    WalletState :=
  match publicKey with
  | none => s
  | some _ => fetchWalletData reads s

/-- Lines 23-31: the reset when the wallet disconnects. -/
def walletDisconnected (s : WalletState) : WalletState :=
  { s with solBalance := 0, bonkBalance := some 0, tokenAccounts := [], emptyAccounts := [],
           reclaimableSol := 0, error := none }

/-! ## `GET /api/auth/status` (`backend/server.js`, lines 21-54) -/

/-- The environment variables read at lines 21-28; `none` is an unset one. -/
structure ServerConfig where
  BROWSER_USE_API_KEY : Option String
  STEEL_API_KEY : Option String
  OPENAI_API_KEY : Option String
  FAL_API_KEY : Option String
  XAI_API_KEY : Option String
  BROWSERBASE_API_KEY : Option String
  BROWSERBASE_PROJECT_ID : Option String
  ANTHROPIC_API_KEY : Option String
deriving DecidableEq, Repr

/-- The `keysConfigured` object of the response. -/
structure KeysConfigured where
  browserUse : Bool
  steel : Bool
  openai : Bool
  fal : Bool
  xai : Bool
  browserbase : Bool
  anthropic : Bool
deriving DecidableEq, Repr

/-- Lines 42-50. -/
def authStatus (c : ServerConfig) : KeysConfigured :=
  { browserUse := truthyOpt c.BROWSER_USE_API_KEY,
    steel := truthyOpt c.STEEL_API_KEY,
    openai := truthyOpt c.OPENAI_API_KEY,
    fal := truthyOpt c.FAL_API_KEY,
    xai := truthyOpt c.XAI_API_KEY,
    browserbase := truthyOpt c.BROWSERBASE_API_KEY && truthyOpt c.BROWSERBASE_PROJECT_ID,
    anthropic := truthyOpt c.ANTHROPIC_API_KEY }

/-! ## Steel sessions (`backend/src/services/steelservice.js`, `routes/steel.js`) -/

/-- The body of the upstream answer to `POST /sessions`: the id and the other
members. -/
structure SteelUpstreamSession where
  id : String
  members : List (String × String)
deriving DecidableEq, Repr

/-- The session `createSession` returns: the upstream body with `cdp_url`
set. -/
structure SteelSession where
  id : String
  members : List (String × String)
  cdp_url : String
deriving DecidableEq, Repr

/-- The text a template literal gives for a string that may be `undefined`. -/
def interpolate : Option String → String
  | some s => s
  | none => "undefined"

/-- Lines 17-42 of `steelservice.js`, given the upstream outcome. -/
def createSession (STEEL_API_KEY : Option String)
    (upstream : Except ServiceError SteelUpstreamSession) : Except ServiceError SteelSession :=
  match upstream with
  | .ok data =>
      .ok { id := data.id, members := data.members,
            cdp_url := "wss://connect.steel.dev?apiKey=" ++ interpolate STEEL_API_KEY ++
              "&sessionId=" ++ data.id }
  | .error e => .error e

/-- What `POST /steel/sessions` sends. -/
inductive SteelBody where
  | session (s : SteelSession)
  | failure (error : String) (details : Option String)
deriving DecidableEq, Repr

/-- Lines 7-21 of `routes/steel.js`: status code and body. -/
def postSteelSessions (STEEL_API_KEY : Option String)
    (upstream : Except ServiceError SteelUpstreamSession) : ℕ × SteelBody :=
  match createSession STEEL_API_KEY upstream with
  | .ok session => (200, .session session)
  | .error err =>
      (500, .failure "Failed to create Steel session"
        (match err.responseData with
         | some data => some data
         | none => some err.message))

/-! ## Fixtures for the revised claims -/

/-- A gateway answering `running` with the steps `open` and `click` and one
screenshot. -/
def spliceGateway : Gateway :=
  scenarioGateway "running"
    { emptyDetails with steps := some [stepNamed "open", stepNamed "click"] }
    (.ok (some { screenshots := some ["shot-0"] }))

/-- A gateway whose create call answers an empty id. -/
def emptyIdGateway : Gateway :=
  { quietGateway with create := fun _ _ _ _ => .ok { id := "", rest := [] } }

/-- The cells after a `startTask` whose create call answered an empty id. -/
def emptyIdState : AgentState :=
  (startTask (some "wallet") emptyIdGateway initialState "find empty accounts" []
    "model-x").state

/-- The cells after task `t1` was reset while a tick was in flight and the
tick's answer `running` was handled afterwards. -/
def lateTickState : AgentState :=
  (fetchTaskStatus quietGateway runningState (resetAgent runningState)).1

/-! ## Fixtures for the routes -/

/-- A request body with no `task` member. -/
def emptyRequest : TaskRequestBody :=
  { task := .absent, walletAddress := .absent, allowedDomains := .absent,
    structuredOutputJson := .absent, llmModel := .absent }

/-- A request body with a task and `allowedDomains: null`. -/
def nullDomainsRequest : TaskRequestBody :=
  { task := .text "x", walletAddress := .absent, allowedDomains := .null,
    structuredOutputJson := .absent, llmModel := .absent }

/-- A stand-in for the `PublicKey` check: only the BONK mint passes. -/
def onlyBonkKey (address : String) : Bool := address == BONK_TOKEN_ADDRESS

/-- A parsed account of the given mint and amount. -/
def parsedAccount (pubkey mint : String) (uiAmount : Option ℚ) : ParsedAccount :=
  { pubkey := pubkey, mint := mint, owner := BONK_TOKEN_ADDRESS, uiAmount := uiAmount,
    decimals := 5, uiAmountString := "" }

/-- A wallet with four token accounts, three of amount 0 (scenario C); the
second one holds 7 BONK. -/
def scenarioWallet : List ParsedAccount :=
  [ parsedAccount "acc-1" "mint-1" (some 0),
    parsedAccount "acc-2" BONK_TOKEN_ADDRESS (some 7),
    parsedAccount "acc-3" "mint-3" (some 0),
    parsedAccount "acc-4" "mint-4" (some 0) ]

/-- An RPC node that reports nine token accounts of amount 0. -/
def nineEmptyRpc : Rpc :=
  { getBalance := fun _ => .ok 1000000000,
    getParsedTokenAccountsByOwner := fun _ =>
      .ok (List.replicate 9 (parsedAccount "acc" "mint" (some 0))) }

/-- An RPC node that reports `scenarioWallet` and a balance of 10^9 lamports. -/
def scenarioRpc : Rpc :=
  { getBalance := fun _ => .ok 1000000000,
    getParsedTokenAccountsByOwner := fun _ => .ok scenarioWallet }

/-- A wallet snapshot held before a refresh. -/
def oldWallet : WalletState :=
  { solBalance := 1, bonkBalance := some 7,
    tokenAccounts := scenarioWallet.map formatTokenAccount,
    emptyAccounts := filterEmpty (scenarioWallet.map formatTokenAccount),
    reclaimableSol := reclaimable (filterEmpty (scenarioWallet.map formatTokenAccount)),
    isLoading := false, error := none }

/-- A refresh whose balance read answers 5 SOL and whose token-account read is
rejected. -/
def brokenReads : WalletReads :=
  { getSolBalance := .ok 5,
    getTokenAccounts := .error { message := "rpc down" },
    getBonkBalance := .ok (some 0),
    getEmptyAccounts := .ok [] }

/-- A refresh all of whose reads succeed, on an empty wallet holding 5 SOL. -/
def emptyWalletReads : WalletReads :=
  { getSolBalance := .ok 5, getTokenAccounts := .ok [], getBonkBalance := .ok (some 0),
    getEmptyAccounts := .ok [] }

/-- A server configuration with every key set to the given value. -/
def uniformConfig (key : String) : ServerConfig :=
  { BROWSER_USE_API_KEY := some key, STEEL_API_KEY := some key, OPENAI_API_KEY := some key,
    FAL_API_KEY := some key, XAI_API_KEY := some key, BROWSERBASE_API_KEY := some key,
    BROWSERBASE_PROJECT_ID := some key, ANTHROPIC_API_KEY := some key }

/-- An upstream answer to the session creation. -/
def upstreamSession : SteelUpstreamSession :=
  { id := "s-1", members := [("status", "live")] }

/-! ## Theorems -/

/-! ### Lemmas on `fetchTaskStatus` -/

theorem adoptLiveUrl_fields (env : AgentState) (d : TaskDetails) (s : AgentState) :
    (adoptLiveUrl env d s).taskId = s.taskId ∧
    (adoptLiveUrl env d s).taskStatus = s.taskStatus ∧
    (adoptLiveUrl env d s).taskProgress = s.taskProgress ∧
    (adoptLiveUrl env d s).taskSteps = s.taskSteps ∧
    (adoptLiveUrl env d s).taskOutput = s.taskOutput ∧
    (adoptLiveUrl env d s).error = s.error ∧
    (adoptLiveUrl env d s).isLoading = s.isLoading := by
  unfold adoptLiveUrl
  split
  · split <;> simp
  · simp

theorem adoptOutput_fields (env : AgentState) (d : TaskDetails) (s : AgentState) :
    (adoptOutput env d s).taskId = s.taskId ∧
    (adoptOutput env d s).taskStatus = s.taskStatus ∧
    (adoptOutput env d s).taskProgress = s.taskProgress ∧
    (adoptOutput env d s).taskSteps = s.taskSteps ∧
    (adoptOutput env d s).liveUrl = s.liveUrl ∧
    (adoptOutput env d s).error = s.error ∧
    (adoptOutput env d s).isLoading = s.isLoading := by
  unfold adoptOutput
  split
  · split <;> simp
  · simp

theorem adoptSteps_fields (st : String) (d : TaskDetails) (s : AgentState) :
    (adoptSteps st d s).taskId = s.taskId ∧
    (adoptSteps st d s).taskStatus = s.taskStatus ∧
    (adoptSteps st d s).taskOutput = s.taskOutput ∧
    (adoptSteps st d s).liveUrl = s.liveUrl ∧
    (adoptSteps st d s).error = s.error ∧
    (adoptSteps st d s).isLoading = s.isLoading := by
  unfold adoptSteps
  split <;> simp

theorem adoptScreenshots_fields (gw : Gateway) (id : String) (d : TaskDetails)
    (s : AgentState) :
    (adoptScreenshots gw id d s).1.taskId = s.taskId ∧
    (adoptScreenshots gw id d s).1.taskStatus = s.taskStatus ∧
    (adoptScreenshots gw id d s).1.taskProgress = s.taskProgress ∧
    (adoptScreenshots gw id d s).1.taskOutput = s.taskOutput ∧
    (adoptScreenshots gw id d s).1.liveUrl = s.liveUrl ∧
    (adoptScreenshots gw id d s).1.error = s.error ∧
    (adoptScreenshots gw id d s).1.isLoading = s.isLoading := by
  unfold adoptScreenshots
  repeat' split
  all_goals simp

/-- The tick does nothing when the closure holds no task id. -/
theorem fetchTaskStatus_no_id (gw : Gateway) (env s : AgentState)
    (h : truthyOpt env.taskId = false) : fetchTaskStatus gw env s = (s, []) := by
  unfold fetchTaskStatus
  cases hid : env.taskId with
  | none => rfl
  | some id =>
    have : truthy id = false := by simpa [hid, truthyOpt] using h
    simp [this]

/-- The tick never writes `taskId` or `isLoading`. -/
theorem fetchTaskStatus_taskId (gw : Gateway) (env s : AgentState) :
    (fetchTaskStatus gw env s).1.taskId = s.taskId := by
  unfold fetchTaskStatus
  repeat' split
  all_goals
    simp [(adoptScreenshots_fields _ _ _ _).1, (adoptSteps_fields _ _ _).1,
      (adoptOutput_fields _ _ _).1, (adoptLiveUrl_fields _ _ _).1]

/-- A tick whose status probe answers `st`, a status for which no detail is
fetched, writes the status and nothing else. -/
theorem fetchTaskStatus_status_only (gw : Gateway) (env s : AgentState) (id st : String)
    (hid : env.taskId = some id) (ht : truthy id = true) (hs : gw.getStatus id = .ok st)
    (hd : detailFetched st = false) :
    fetchTaskStatus gw env s = ({ s with taskStatus := st }, [Call.getStatus id]) := by
  simp [fetchTaskStatus, hid, ht, hs, hd]

/-- The positional merge keeps the length and every member but `screenshot`. -/
theorem mergeFrom_payload (shots : List String) (steps : List Step) (i : ℕ) :
    (mergeFrom shots i steps).map Step.payload = steps.map Step.payload := by
  induction steps generalizing i with
  | nil => rfl
  | cons a t ih => simp [mergeFrom, ih]

/-- A tick that receives a detail carrying a step list: the status, progress
and steps it leaves. -/
theorem fetchTaskStatus_with_steps (gw : Gateway) (env s : AgentState) (id st : String)
    (d : TaskDetails) (steps : List Step)
    (hid : env.taskId = some id) (ht : truthy id = true) (hs : gw.getStatus id = .ok st)
    (hf : detailFetched st = true) (hg : gw.get id = .ok d) (hsteps : d.steps = some steps) :
    (fetchTaskStatus gw env s).1.taskStatus = st ∧
    (fetchTaskStatus gw env s).1.taskProgress = progressOf st steps.length ∧
    ((fetchTaskStatus gw env s).1.taskSteps = steps ∨
      ∃ shots, (fetchTaskStatus gw env s).1.taskSteps = mergeScreenshots steps shots) := by
  have e : (fetchTaskStatus gw env s).1 =
      (adoptScreenshots gw id d (adoptSteps st d (adoptOutput env d
        (adoptLiveUrl env d { s with taskStatus := st })))).1 := by
    simp [fetchTaskStatus, hid, ht, hs, hf, hg]
  rw [e]
  refine ⟨?_, ?_, ?_⟩
  · rw [(adoptScreenshots_fields _ _ _ _).2.1, (adoptSteps_fields _ _ _).2.1,
      (adoptOutput_fields _ _ _).2.1, (adoptLiveUrl_fields _ _ _).2.1]
  · rw [(adoptScreenshots_fields _ _ _ _).2.2.1]
    simp [adoptSteps, hsteps]
  · unfold adoptScreenshots
    simp only [hsteps]
    repeat' split
    all_goals first
      | (right; exact ⟨_, rfl⟩)
      | (left; simp [adoptSteps, hsteps])



/-- C1: an illegal control command is a local no-op.  `pauseTask` with no
task id or a status other than `running`, `resumeTask` with no task id or a
status other than `paused`, and `stopTask` with no task id or a status that is
neither `running` nor `paused` return `false`, issue no gateway call and leave
every cell as it was. -/
theorem illegal_command_is_noop (gw : Gateway) (s : AgentState) :
    ((truthyOpt s.taskId = false ∨ s.taskStatus ≠ "running") →
      (pauseTask gw s).state = s ∧ (pauseTask gw s).result = false ∧
        (pauseTask gw s).calls = []) ∧
    ((truthyOpt s.taskId = false ∨ s.taskStatus ≠ "paused") →
      (resumeTask gw s).state = s ∧ (resumeTask gw s).result = false ∧
        (resumeTask gw s).calls = []) ∧
    ((truthyOpt s.taskId = false ∨
        (s.taskStatus ≠ "running" ∧ s.taskStatus ≠ "paused")) →
      (stopTask gw s).state = s ∧ (stopTask gw s).result = false ∧
        (stopTask gw s).calls = []) := by
  refine ⟨?_, ?_, ?_⟩
  · intro h
    unfold pauseTask
    cases hid : s.taskId with
    | none => simp
    | some id =>
      rcases h with h | h
      · have : truthy id = false := by simpa [hid, truthyOpt] using h
        simp [this]
      · simp [h]
  · intro h
    unfold resumeTask
    cases hid : s.taskId with
    | none => simp
    | some id =>
      rcases h with h | h
      · have : truthy id = false := by simpa [hid, truthyOpt] using h
        simp [this]
      · simp [h]
  · intro h
    unfold stopTask
    cases hid : s.taskId with
    | none => simp
    | some id =>
      rcases h with h | h
      · have : truthy id = false := by simpa [hid, truthyOpt] using h
        simp [this]
      · simp [h.1, h.2]

/-- Witness of C1 at the initial state, where no task id is held. -/
theorem illegal_command_is_noop_witness :
    (pauseTask quietGateway initialState).state = initialState ∧
      (pauseTask quietGateway initialState).result = false ∧
      (pauseTask quietGateway initialState).calls = [] :=
  (illegal_command_is_noop quietGateway initialState).1 (Or.inl rfl)

/-- C2: when the gateway call succeeds, `pauseTask` from `running` sets the
status to `paused`, `resumeTask` from `paused` sets it to `running`, and
`stopTask` from `running` or `paused` sets it to `idle` and empties `liveUrl`;
each returns `true`, issues that one call and changes no other cell. -/
theorem control_transitions (gw : Gateway) (s : AgentState) (id : String)
    (hid : s.taskId = some id) (ht : truthy id = true) :
    (s.taskStatus = "running" → gw.pause id = .ok () →
      (pauseTask gw s).state = { s with taskStatus := "paused" } ∧
        (pauseTask gw s).result = true ∧ (pauseTask gw s).calls = [Call.pause id]) ∧
    (s.taskStatus = "paused" → gw.resume id = .ok () →
      (resumeTask gw s).state = { s with taskStatus := "running" } ∧
        (resumeTask gw s).result = true ∧ (resumeTask gw s).calls = [Call.resume id]) ∧
    ((s.taskStatus = "running" ∨ s.taskStatus = "paused") → gw.stop id = .ok () →
      (stopTask gw s).state = { s with taskStatus := "idle", liveUrl := "" } ∧
        (stopTask gw s).result = true ∧ (stopTask gw s).calls = [Call.stop id]) := by
  refine ⟨?_, ?_, ?_⟩
  · intro hs hg
    simp [pauseTask, hid, ht, hs, hg]
  · intro hs hg
    simp [resumeTask, hid, ht, hs, hg]
  · intro hs hg
    rcases hs with hs | hs <;> simp [stopTask, hid, ht, hs, hg]

/-- Witness of C2: pausing the running task `t1`. -/
theorem control_transitions_witness :
    (pauseTask quietGateway runningState).state =
        { runningState with taskStatus := "paused" } ∧
      (pauseTask quietGateway runningState).result = true ∧
      (pauseTask quietGateway runningState).calls = [Call.pause "t1"] :=
  (control_transitions quietGateway runningState "t1" rfl (by decide)).1 rfl rfl

/-- C3: `startTask` with a wallet connected, from cells holding no task id,
whose gateway create succeeds with response `r`, ends with `taskId = r.id`,
status `running`, progress 0, no steps, empty output and live URL, no error
and `isLoading` false; it returns `r` and issues the create call only. -/
theorem startTask_success (pk : String) (gw : Gateway) (s : AgentState)
    (taskDescription : String) (allowedDomains : List String) (llmModel : String)
    (r : CreateResponse) (hid : truthyOpt s.taskId = false)
    (hg : gw.create taskDescription pk allowedDomains llmModel = .ok r) :
    (startTask (some pk) gw s taskDescription allowedDomains llmModel).state =
        { taskId := some r.id, taskStatus := "running", taskProgress := 0, taskSteps := [],
          taskOutput := "", liveUrl := "", error := none, isLoading := false } ∧
      (startTask (some pk) gw s taskDescription allowedDomains llmModel).result = some r ∧
      (startTask (some pk) gw s taskDescription allowedDomains llmModel).calls =
        [Call.create taskDescription pk allowedDomains llmModel] := by
  have hf : ∀ t : AgentState, fetchTaskStatus gw s t = (t, []) := by
    intro t
    unfold fetchTaskStatus
    cases h : s.taskId with
    | none => rfl
    | some id =>
      have : truthy id = false := by simpa [h, truthyOpt] using hid
      simp [this]
  simp [startTask, hg, hf]

/-- Witness of C3: create answers id `t1`. -/
theorem startTask_success_witness :
    (startTask (some "wallet") quietGateway initialState "find empty accounts" []
        "model-x").state =
        { taskId := some "t1", taskStatus := "running", taskProgress := 0, taskSteps := [],
          taskOutput := "", liveUrl := "", error := none, isLoading := false } ∧
      (startTask (some "wallet") quietGateway initialState "find empty accounts" []
        "model-x").result = some { id := "t1", rest := [] } ∧
      (startTask (some "wallet") quietGateway initialState "find empty accounts" []
        "model-x").calls = [Call.create "find empty accounts" "wallet" [] "model-x"] :=
  startTask_success "wallet" quietGateway initialState "find empty accounts" [] "model-x"
    { id := "t1", rest := [] } rfl rfl

/-! ### Binary64 rounding -/

theorem roundHalfEven_eq_of_near {q : ℚ} {k : ℤ} (h1 : (k : ℚ) - 1 / 2 < q)
    (h2 : q < (k : ℚ) + 1 / 2) : roundHalfEven q = k := by
  unfold roundHalfEven
  rcases le_or_lt (k : ℚ) q with h | h
  · have hf : ⌊q⌋ = k := Int.floor_eq_iff.mpr ⟨h, by linarith⟩
    rw [hf, if_pos (by linarith)]
  · have hf : ⌊q⌋ = k - 1 := Int.floor_eq_iff.mpr ⟨by push_cast; linarith, by push_cast; linarith⟩
    have h3 : ¬ (q - ((k - 1 : ℤ) : ℚ) < 1 / 2) := by push_cast; linarith
    have h4 : 1 / 2 < q - ((k - 1 : ℤ) : ℚ) := by push_cast; linarith
    rw [hf, if_neg h3, if_pos h4]; ring

theorem floor_le_roundHalfEven (q : ℚ) : ⌊q⌋ ≤ roundHalfEven q := by
  unfold roundHalfEven
  split_ifs <;> omega

theorem log_two_eq {q : ℚ} {e : ℤ} (h1 : (2 : ℚ) ^ e ≤ q) (h2 : q < (2 : ℚ) ^ (e + 1)) :
    Int.log 2 |q| = e := by
  have hq : 0 < q := lt_of_lt_of_le (by positivity) h1
  rw [abs_of_pos hq]
  have a : e ≤ Int.log 2 q := (Int.zpow_le_iff_le_log (by norm_num) hq).mp (by exact_mod_cast h1)
  have b : Int.log 2 q < e + 1 := (Int.lt_zpow_iff_log_lt (by norm_num) hq).mp (by exact_mod_cast h2)
  omega

theorem fl_eq_of {q : ℚ} (e k : ℤ) (h1 : (2 : ℚ) ^ e ≤ q) (h2 : q < (2 : ℚ) ^ (e + 1))
    (h3 : (k : ℚ) - 1 / 2 < q / (2 : ℚ) ^ (e - 52))
    (h4 : q / (2 : ℚ) ^ (e - 52) < (k : ℚ) + 1 / 2) :
    fl q = k * (2 : ℚ) ^ (e - 52) := by
  have hq : 0 < q := lt_of_lt_of_le (by positivity) h1
  unfold fl
  rw [if_neg hq.ne', log_two_eq h1 h2, roundHalfEven_eq_of_near h3 h4]

theorem fl_lower {q : ℚ} (hq : 0 < q) : q * (1 - 1 / 2 ^ 52) ≤ fl q := by
  unfold fl
  rw [if_neg hq.ne', abs_of_pos hq]
  set e := Int.log 2 q with he
  have hu : (0 : ℚ) < (2 : ℚ) ^ (e - 52) := by positivity
  have hle : (2 : ℚ) ^ e ≤ q := by
    have := Int.zpow_log_le_self (b := 2) (r := q) (by norm_num) hq
    exact_mod_cast this
  have hsplit : (2 : ℚ) ^ (e - 52) = (2 : ℚ) ^ e / 2 ^ 52 := by
    rw [zpow_sub₀ (by norm_num)]; norm_num
  have hfl : q / (2 : ℚ) ^ (e - 52) - 1 < (roundHalfEven (q / (2 : ℚ) ^ (e - 52)) : ℚ) := by
    have h1 := Int.lt_floor_add_one (q / (2 : ℚ) ^ (e - 52))
    have h2 : ((⌊q / (2 : ℚ) ^ (e - 52)⌋ : ℤ) : ℚ) ≤ roundHalfEven (q / (2 : ℚ) ^ (e - 52)) := by
      exact_mod_cast floor_le_roundHalfEven _
    linarith
  have h5 : (q / (2 : ℚ) ^ (e - 52) - 1) * (2 : ℚ) ^ (e - 52) ≤
      roundHalfEven (q / (2 : ℚ) ^ (e - 52)) * (2 : ℚ) ^ (e - 52) :=
    mul_le_mul_of_nonneg_right hfl.le hu.le
  have h6 : (q / (2 : ℚ) ^ (e - 52) - 1) * (2 : ℚ) ^ (e - 52) = q - (2 : ℚ) ^ (e - 52) := by
    field_simp
  have h7 : (2 : ℚ) ^ (e - 52) ≤ q / 2 ^ 52 := by
    rw [hsplit]; exact div_le_div_of_nonneg_right hle (by positivity)
  calc q * (1 - 1 / 2 ^ 52) = q - q / 2 ^ 52 := by ring
    _ ≤ q - (2 : ℚ) ^ (e - 52) := by linarith
    _ = (q / (2 : ℚ) ^ (e - 52) - 1) * (2 : ℚ) ^ (e - 52) := h6.symm
    _ ≤ _ := h5

theorem scaled_at_1 : jsMul (jsDiv 1 20) 100 = 5 := by
  have h1 : fl (((1 : ℚ)) / 20) = 7205759403792794 * (2 : ℚ) ^ ((-5 : ℤ) - 52) :=
    fl_eq_of (-5) 7205759403792794 (by norm_num) (by norm_num) (by norm_num) (by norm_num)
  have h2 : fl (7205759403792794 * (2 : ℚ) ^ ((-5 : ℤ) - 52) * 100) = 5629499534213120 * (2 : ℚ) ^ ((2 : ℤ) - 52) :=
    fl_eq_of 2 5629499534213120 (by norm_num) (by norm_num) (by norm_num) (by norm_num)
  rw [jsMul, jsDiv, h1, h2]; norm_num

theorem scaled_at_2 : jsMul (jsDiv 2 20) 100 = 10 := by
  have h1 : fl (((2 : ℚ)) / 20) = 7205759403792794 * (2 : ℚ) ^ ((-4 : ℤ) - 52) :=
    fl_eq_of (-4) 7205759403792794 (by norm_num) (by norm_num) (by norm_num) (by norm_num)
  have h2 : fl (7205759403792794 * (2 : ℚ) ^ ((-4 : ℤ) - 52) * 100) = 5629499534213120 * (2 : ℚ) ^ ((3 : ℤ) - 52) :=
    fl_eq_of 3 5629499534213120 (by norm_num) (by norm_num) (by norm_num) (by norm_num)
  rw [jsMul, jsDiv, h1, h2]; norm_num

theorem scaled_at_3 : jsMul (jsDiv 3 20) 100 = 15 := by
  have h1 : fl (((3 : ℚ)) / 20) = 5404319552844595 * (2 : ℚ) ^ ((-3 : ℤ) - 52) :=
    fl_eq_of (-3) 5404319552844595 (by norm_num) (by norm_num) (by norm_num) (by norm_num)
  have h2 : fl (5404319552844595 * (2 : ℚ) ^ ((-3 : ℤ) - 52) * 100) = 8444249301319680 * (2 : ℚ) ^ ((3 : ℤ) - 52) :=
    fl_eq_of 3 8444249301319680 (by norm_num) (by norm_num) (by norm_num) (by norm_num)
  rw [jsMul, jsDiv, h1, h2]; norm_num

theorem scaled_at_4 : jsMul (jsDiv 4 20) 100 = 20 := by
  have h1 : fl (((4 : ℚ)) / 20) = 7205759403792794 * (2 : ℚ) ^ ((-3 : ℤ) - 52) :=
    fl_eq_of (-3) 7205759403792794 (by norm_num) (by norm_num) (by norm_num) (by norm_num)
  have h2 : fl (7205759403792794 * (2 : ℚ) ^ ((-3 : ℤ) - 52) * 100) = 5629499534213120 * (2 : ℚ) ^ ((4 : ℤ) - 52) :=
    fl_eq_of 4 5629499534213120 (by norm_num) (by norm_num) (by norm_num) (by norm_num)
  rw [jsMul, jsDiv, h1, h2]; norm_num

theorem scaled_at_5 : jsMul (jsDiv 5 20) 100 = 25 := by
  have h1 : fl (((5 : ℚ)) / 20) = 4503599627370496 * (2 : ℚ) ^ ((-2 : ℤ) - 52) :=
    fl_eq_of (-2) 4503599627370496 (by norm_num) (by norm_num) (by norm_num) (by norm_num)
  have h2 : fl (4503599627370496 * (2 : ℚ) ^ ((-2 : ℤ) - 52) * 100) = 7036874417766400 * (2 : ℚ) ^ ((4 : ℤ) - 52) :=
    fl_eq_of 4 7036874417766400 (by norm_num) (by norm_num) (by norm_num) (by norm_num)
  rw [jsMul, jsDiv, h1, h2]; norm_num

theorem scaled_at_6 : jsMul (jsDiv 6 20) 100 = 30 := by
  have h1 : fl (((6 : ℚ)) / 20) = 5404319552844595 * (2 : ℚ) ^ ((-2 : ℤ) - 52) :=
    fl_eq_of (-2) 5404319552844595 (by norm_num) (by norm_num) (by norm_num) (by norm_num)
  have h2 : fl (5404319552844595 * (2 : ℚ) ^ ((-2 : ℤ) - 52) * 100) = 8444249301319680 * (2 : ℚ) ^ ((4 : ℤ) - 52) :=
    fl_eq_of 4 8444249301319680 (by norm_num) (by norm_num) (by norm_num) (by norm_num)
  rw [jsMul, jsDiv, h1, h2]; norm_num

theorem scaled_at_7 : jsMul (jsDiv 7 20) 100 = 35 := by
  have h1 : fl (((7 : ℚ)) / 20) = 6305039478318694 * (2 : ℚ) ^ ((-2 : ℤ) - 52) :=
    fl_eq_of (-2) 6305039478318694 (by norm_num) (by norm_num) (by norm_num) (by norm_num)
  have h2 : fl (6305039478318694 * (2 : ℚ) ^ ((-2 : ℤ) - 52) * 100) = 4925812092436480 * (2 : ℚ) ^ ((5 : ℤ) - 52) :=
    fl_eq_of 5 4925812092436480 (by norm_num) (by norm_num) (by norm_num) (by norm_num)
  rw [jsMul, jsDiv, h1, h2]; norm_num

theorem scaled_at_8 : jsMul (jsDiv 8 20) 100 = 40 := by
  have h1 : fl (((8 : ℚ)) / 20) = 7205759403792794 * (2 : ℚ) ^ ((-2 : ℤ) - 52) :=
    fl_eq_of (-2) 7205759403792794 (by norm_num) (by norm_num) (by norm_num) (by norm_num)
  have h2 : fl (7205759403792794 * (2 : ℚ) ^ ((-2 : ℤ) - 52) * 100) = 5629499534213120 * (2 : ℚ) ^ ((5 : ℤ) - 52) :=
    fl_eq_of 5 5629499534213120 (by norm_num) (by norm_num) (by norm_num) (by norm_num)
  rw [jsMul, jsDiv, h1, h2]; norm_num

theorem scaled_at_9 : jsMul (jsDiv 9 20) 100 = 45 := by
  have h1 : fl (((9 : ℚ)) / 20) = 8106479329266893 * (2 : ℚ) ^ ((-2 : ℤ) - 52) :=
    fl_eq_of (-2) 8106479329266893 (by norm_num) (by norm_num) (by norm_num) (by norm_num)
  have h2 : fl (8106479329266893 * (2 : ℚ) ^ ((-2 : ℤ) - 52) * 100) = 6333186975989760 * (2 : ℚ) ^ ((5 : ℤ) - 52) :=
    fl_eq_of 5 6333186975989760 (by norm_num) (by norm_num) (by norm_num) (by norm_num)
  rw [jsMul, jsDiv, h1, h2]; norm_num

theorem scaled_at_10 : jsMul (jsDiv 10 20) 100 = 50 := by
  have h1 : fl (((10 : ℚ)) / 20) = 4503599627370496 * (2 : ℚ) ^ ((-1 : ℤ) - 52) :=
    fl_eq_of (-1) 4503599627370496 (by norm_num) (by norm_num) (by norm_num) (by norm_num)
  have h2 : fl (4503599627370496 * (2 : ℚ) ^ ((-1 : ℤ) - 52) * 100) = 7036874417766400 * (2 : ℚ) ^ ((5 : ℤ) - 52) :=
    fl_eq_of 5 7036874417766400 (by norm_num) (by norm_num) (by norm_num) (by norm_num)
  rw [jsMul, jsDiv, h1, h2]; norm_num

theorem scaled_at_11 : jsMul (jsDiv 11 20) 100 = 55 + 1 / 2 ^ 47 := by
  have h1 : fl (((11 : ℚ)) / 20) = 4953959590107546 * (2 : ℚ) ^ ((-1 : ℤ) - 52) :=
    fl_eq_of (-1) 4953959590107546 (by norm_num) (by norm_num) (by norm_num) (by norm_num)
  have h2 : fl (4953959590107546 * (2 : ℚ) ^ ((-1 : ℤ) - 52) * 100) = 7740561859543041 * (2 : ℚ) ^ ((5 : ℤ) - 52) :=
    fl_eq_of 5 7740561859543041 (by norm_num) (by norm_num) (by norm_num) (by norm_num)
  rw [jsMul, jsDiv, h1, h2]; norm_num

theorem scaled_at_12 : jsMul (jsDiv 12 20) 100 = 60 := by
  have h1 : fl (((12 : ℚ)) / 20) = 5404319552844595 * (2 : ℚ) ^ ((-1 : ℤ) - 52) :=
    fl_eq_of (-1) 5404319552844595 (by norm_num) (by norm_num) (by norm_num) (by norm_num)
  have h2 : fl (5404319552844595 * (2 : ℚ) ^ ((-1 : ℤ) - 52) * 100) = 8444249301319680 * (2 : ℚ) ^ ((5 : ℤ) - 52) :=
    fl_eq_of 5 8444249301319680 (by norm_num) (by norm_num) (by norm_num) (by norm_num)
  rw [jsMul, jsDiv, h1, h2]; norm_num

theorem scaled_at_13 : jsMul (jsDiv 13 20) 100 = 65 := by
  have h1 : fl (((13 : ℚ)) / 20) = 5854679515581645 * (2 : ℚ) ^ ((-1 : ℤ) - 52) :=
    fl_eq_of (-1) 5854679515581645 (by norm_num) (by norm_num) (by norm_num) (by norm_num)
  have h2 : fl (5854679515581645 * (2 : ℚ) ^ ((-1 : ℤ) - 52) * 100) = 4573968371548160 * (2 : ℚ) ^ ((6 : ℤ) - 52) :=
    fl_eq_of 6 4573968371548160 (by norm_num) (by norm_num) (by norm_num) (by norm_num)
  rw [jsMul, jsDiv, h1, h2]; norm_num

theorem scaled_at_14 : jsMul (jsDiv 14 20) 100 = 70 := by
  have h1 : fl (((14 : ℚ)) / 20) = 6305039478318694 * (2 : ℚ) ^ ((-1 : ℤ) - 52) :=
    fl_eq_of (-1) 6305039478318694 (by norm_num) (by norm_num) (by norm_num) (by norm_num)
  have h2 : fl (6305039478318694 * (2 : ℚ) ^ ((-1 : ℤ) - 52) * 100) = 4925812092436480 * (2 : ℚ) ^ ((6 : ℤ) - 52) :=
    fl_eq_of 6 4925812092436480 (by norm_num) (by norm_num) (by norm_num) (by norm_num)
  rw [jsMul, jsDiv, h1, h2]; norm_num

theorem scaled_at_15 : jsMul (jsDiv 15 20) 100 = 75 := by
  have h1 : fl (((15 : ℚ)) / 20) = 6755399441055744 * (2 : ℚ) ^ ((-1 : ℤ) - 52) :=
    fl_eq_of (-1) 6755399441055744 (by norm_num) (by norm_num) (by norm_num) (by norm_num)
  have h2 : fl (6755399441055744 * (2 : ℚ) ^ ((-1 : ℤ) - 52) * 100) = 5277655813324800 * (2 : ℚ) ^ ((6 : ℤ) - 52) :=
    fl_eq_of 6 5277655813324800 (by norm_num) (by norm_num) (by norm_num) (by norm_num)
  rw [jsMul, jsDiv, h1, h2]; norm_num

theorem scaled_at_16 : jsMul (jsDiv 16 20) 100 = 80 := by
  have h1 : fl (((16 : ℚ)) / 20) = 7205759403792794 * (2 : ℚ) ^ ((-1 : ℤ) - 52) :=
    fl_eq_of (-1) 7205759403792794 (by norm_num) (by norm_num) (by norm_num) (by norm_num)
  have h2 : fl (7205759403792794 * (2 : ℚ) ^ ((-1 : ℤ) - 52) * 100) = 5629499534213120 * (2 : ℚ) ^ ((6 : ℤ) - 52) :=
    fl_eq_of 6 5629499534213120 (by norm_num) (by norm_num) (by norm_num) (by norm_num)
  rw [jsMul, jsDiv, h1, h2]; norm_num

theorem scaled_at_17 : jsMul (jsDiv 17 20) 100 = 85 := by
  have h1 : fl (((17 : ℚ)) / 20) = 7656119366529843 * (2 : ℚ) ^ ((-1 : ℤ) - 52) :=
    fl_eq_of (-1) 7656119366529843 (by norm_num) (by norm_num) (by norm_num) (by norm_num)
  have h2 : fl (7656119366529843 * (2 : ℚ) ^ ((-1 : ℤ) - 52) * 100) = 5981343255101440 * (2 : ℚ) ^ ((6 : ℤ) - 52) :=
    fl_eq_of 6 5981343255101440 (by norm_num) (by norm_num) (by norm_num) (by norm_num)
  rw [jsMul, jsDiv, h1, h2]; norm_num

theorem scaled_at_18 : jsMul (jsDiv 18 20) 100 = 90 := by
  have h1 : fl (((18 : ℚ)) / 20) = 8106479329266893 * (2 : ℚ) ^ ((-1 : ℤ) - 52) :=
    fl_eq_of (-1) 8106479329266893 (by norm_num) (by norm_num) (by norm_num) (by norm_num)
  have h2 : fl (8106479329266893 * (2 : ℚ) ^ ((-1 : ℤ) - 52) * 100) = 6333186975989760 * (2 : ℚ) ^ ((6 : ℤ) - 52) :=
    fl_eq_of 6 6333186975989760 (by norm_num) (by norm_num) (by norm_num) (by norm_num)
  rw [jsMul, jsDiv, h1, h2]; norm_num

theorem scaled_at_19 : jsMul (jsDiv 19 20) 100 = 95 := by
  have h1 : fl (((19 : ℚ)) / 20) = 8556839292003942 * (2 : ℚ) ^ ((-1 : ℤ) - 52) :=
    fl_eq_of (-1) 8556839292003942 (by norm_num) (by norm_num) (by norm_num) (by norm_num)
  have h2 : fl (8556839292003942 * (2 : ℚ) ^ ((-1 : ℤ) - 52) * 100) = 6685030696878080 * (2 : ℚ) ^ ((6 : ℤ) - 52) :=
    fl_eq_of 6 6685030696878080 (by norm_num) (by norm_num) (by norm_num) (by norm_num)
  rw [jsMul, jsDiv, h1, h2]; norm_num

theorem scaled_at_0 : jsMul (jsDiv 0 20) 100 = 0 := by
  simp [jsMul, jsDiv, fl]

theorem scaled_table (n : ℕ) (hn : n < 20) :
    jsMul (jsDiv (n : ℚ) 20) 100 = if n = 11 then 55 + 1 / 2 ^ 47 else 5 * (n : ℚ) := by
  interval_cases n
  · rw [Nat.cast_zero, scaled_at_0]; norm_num
  · rw [Nat.cast_one, scaled_at_1]; norm_num
  · rw [Nat.cast_ofNat, scaled_at_2]; norm_num
  · rw [Nat.cast_ofNat, scaled_at_3]; norm_num
  · rw [Nat.cast_ofNat, scaled_at_4]; norm_num
  · rw [Nat.cast_ofNat, scaled_at_5]; norm_num
  · rw [Nat.cast_ofNat, scaled_at_6]; norm_num
  · rw [Nat.cast_ofNat, scaled_at_7]; norm_num
  · rw [Nat.cast_ofNat, scaled_at_8]; norm_num
  · rw [Nat.cast_ofNat, scaled_at_9]; norm_num
  · rw [Nat.cast_ofNat, scaled_at_10]; norm_num
  · rw [Nat.cast_ofNat, scaled_at_11]; norm_num
  · rw [Nat.cast_ofNat, scaled_at_12]; norm_num
  · rw [Nat.cast_ofNat, scaled_at_13]; norm_num
  · rw [Nat.cast_ofNat, scaled_at_14]; norm_num
  · rw [Nat.cast_ofNat, scaled_at_15]; norm_num
  · rw [Nat.cast_ofNat, scaled_at_16]; norm_num
  · rw [Nat.cast_ofNat, scaled_at_17]; norm_num
  · rw [Nat.cast_ofNat, scaled_at_18]; norm_num
  · rw [Nat.cast_ofNat, scaled_at_19]; norm_num

theorem scaled_ge (n : ℕ) (hn : 20 ≤ n) : 99 ≤ jsMul (jsDiv (n : ℚ) 20) 100 := by
  have hn' : (20 : ℚ) ≤ n := by exact_mod_cast hn
  have h1 : (1 : ℚ) - 1 / 2 ^ 52 ≤ jsDiv (n : ℚ) 20 := by
    have := fl_lower (q := (n : ℚ) / 20) (by positivity)
    have h : (1 : ℚ) ≤ (n : ℚ) / 20 := by rw [le_div_iff₀ (by norm_num)]; linarith
    unfold jsDiv
    nlinarith
  have hpos : (0 : ℚ) < jsDiv (n : ℚ) 20 * 100 := by
    have : (0 : ℚ) < 1 - 1 / 2 ^ 52 := by norm_num
    linarith
  have h2 := fl_lower hpos
  unfold jsMul
  have h3 : (99 : ℚ) ≤ (1 - 1 / 2 ^ 52) * 100 * (1 - 1 / 2 ^ 52) := by norm_num
  have h4 : (1 - 1 / 2 ^ 52) * 100 * (1 - 1 / 2 ^ 52) ≤ jsDiv (n : ℚ) 20 * 100 * (1 - 1 / 2 ^ 52) := by
    apply mul_le_mul_of_nonneg_right _ (by norm_num)
    linarith
  linarith

/-- Progress while not finished, for fewer than twenty steps. -/
theorem progressOf_small (st : String) (hst : st ≠ "finished") (n : ℕ) (hn : n < 20) :
    progressOf st n = if n = 11 then 55 + 1 / 2 ^ 47 else 5 * (n : ℚ) := by
  have hn' : (n : ℚ) ≤ 19 := by exact_mod_cast Nat.lt_succ_iff.mp hn
  unfold progressOf
  rw [if_neg hst, scaled_table n hn]
  split
  · exact min_eq_left (by norm_num)
  · exact min_eq_left (by linarith)

/-- Progress while not finished, from twenty steps on. -/
theorem progressOf_large (st : String) (hst : st ≠ "finished") (n : ℕ) (hn : 20 ≤ n) :
    progressOf st n = 99 := by
  unfold progressOf
  rw [if_neg hst]
  exact min_eq_right (scaled_ge n hn)

/-- Progress while not finished never decreases with the step count. -/
theorem progressOf_mono (st : String) (hst : st ≠ "finished") (m n : ℕ) (hmn : m ≤ n) :
    progressOf st m ≤ progressOf st n := by
  rcases Nat.lt_or_ge n 20 with hn | hn
  · have hm : m < 20 := lt_of_le_of_lt hmn hn
    rw [progressOf_small st hst m hm, progressOf_small st hst n hn]
    have hq : (m : ℚ) ≤ n := by exact_mod_cast hmn
    by_cases h1 : m = 11 <;> by_cases h2 : n = 11
    · simp [h1, h2]
    · have : 12 ≤ n := by omega
      have : (12 : ℚ) ≤ n := by exact_mod_cast this
      rw [if_pos h1, if_neg h2]
      have : (1 : ℚ) / 2 ^ 47 ≤ 1 := by norm_num
      linarith
    · have : m ≤ 10 := by omega
      have : (m : ℚ) ≤ 10 := by exact_mod_cast this
      rw [if_neg h1, if_pos h2]
      have : (0 : ℚ) ≤ 1 / 2 ^ 47 := by norm_num
      linarith
    · rw [if_neg h1, if_neg h2]; linarith
  · rw [progressOf_large st hst n hn]
    unfold progressOf
    rw [if_neg hst]
    exact min_le_right _ _


/-! ### Lemmas on the control commands and on reachable states -/

theorem pauseTask_frame (gw : Gateway) (s : AgentState) :
    (pauseTask gw s).state.taskId = s.taskId ∧
    (truthyOpt s.taskId = false → (pauseTask gw s).state = s) := by
  unfold pauseTask
  cases hid : s.taskId with
  | none => simp [hid]
  | some id =>
    by_cases ht : truthy id = true
    · simp only [truthyOpt, ht]
      repeat' split
      all_goals simp [hid]
    · simp [truthyOpt, ht, hid]

theorem resumeTask_frame (gw : Gateway) (s : AgentState) :
    (resumeTask gw s).state.taskId = s.taskId ∧
    (truthyOpt s.taskId = false → (resumeTask gw s).state = s) := by
  unfold resumeTask
  cases hid : s.taskId with
  | none => simp [hid]
  | some id =>
    by_cases ht : truthy id = true
    · simp only [truthyOpt, ht]
      repeat' split
      all_goals simp [hid]
    · simp [truthyOpt, ht, hid]

theorem stopTask_frame (gw : Gateway) (s : AgentState) :
    (stopTask gw s).state.taskId = s.taskId ∧
    (truthyOpt s.taskId = false → (stopTask gw s).state = s) := by
  unfold stopTask
  cases hid : s.taskId with
  | none => simp [hid]
  | some id =>
    by_cases ht : truthy id = true
    · simp only [truthyOpt, ht]
      repeat' split
      all_goals simp [hid]
    · simp [truthyOpt, ht, hid]

/-- The three ways `startTask` can end. -/
theorem startTask_cases (publicKey : Option String) (gw : Gateway) (s : AgentState)
    (taskDescription : String) (allowedDomains : List String) (llmModel : String) :
    ((startTask publicKey gw s taskDescription allowedDomains llmModel).state.taskId = s.taskId ∧
      (startTask publicKey gw s taskDescription allowedDomains llmModel).state.taskStatus =
        s.taskStatus) ∨
    (∃ pk r, publicKey = some pk ∧
      gw.create taskDescription pk allowedDomains llmModel = .ok r ∧
      (startTask publicKey gw s taskDescription allowedDomains llmModel).state.taskId =
        some r.id) ∨
    ((startTask publicKey gw s taskDescription allowedDomains llmModel).state.taskId = none ∧
      (startTask publicKey gw s taskDescription allowedDomains llmModel).state.taskStatus =
        "failed") := by
  cases publicKey with
  | none => left; simp [startTask]
  | some pk =>
    cases hc : gw.create taskDescription pk allowedDomains llmModel with
    | ok r =>
      right; left
      exact ⟨pk, r, rfl, hc, by simp [startTask, hc, fetchTaskStatus_taskId]⟩
    | error err => right; right; simp [startTask, hc]

/-- In a reachable state a held task id is non-empty. -/
theorem Reachable.id_truthy {s : AgentState} (h : Reachable s) :
    s.taskId ≠ none → truthyOpt s.taskId = true := by
  induction h with
  | init => intro h; exact absurd rfl h
  | start publicKey gw desc domains model hr hgw ih =>
    rcases startTask_cases publicKey gw _ desc domains model with h | ⟨pk, r, hp, hc, h⟩ | h
    · rw [h.1]; exact ih
    · intro _; rw [h]; exact hgw pk r hp hc
    · intro hne; exact absurd h.1 hne
  | tick gw env hr henv ih => rw [fetchTaskStatus_taskId]; exact ih
  | pause gw hr ih => rw [(pauseTask_frame gw _).1]; exact ih
  | resume gw hr ih => rw [(resumeTask_frame gw _).1]; exact ih
  | stop gw hr ih => rw [(stopTask_frame gw _).1]; exact ih
  | reset hr ih => intro h; exact absurd rfl h

/-- In a reachable state without a task id the status is `idle` or `failed`. -/
theorem Reachable.status_of_no_id {s : AgentState} (h : Reachable s) :
    s.taskId = none → s.taskStatus = "idle" ∨ s.taskStatus = "failed" := by
  induction h with
  | init => intro _; left; rfl
  | start publicKey gw desc domains model hr hgw ih =>
    rcases startTask_cases publicKey gw _ desc domains model with h | ⟨pk, r, hp, hc, h⟩ | h
    · rw [h.1, h.2]; exact ih
    · intro hn; rw [h] at hn; exact absurd hn (by simp)
    · intro _; right; exact h.2
  | @tick gw env s hr henv ih =>
    intro hn
    rw [fetchTaskStatus_taskId] at hn
    rw [fetchTaskStatus_no_id gw env s (by rw [henv, hn]; rfl)]
    exact ih hn
  | @pause gw s hr ih =>
    intro hn
    rw [(pauseTask_frame gw s).1] at hn
    rw [(pauseTask_frame gw s).2 (by rw [hn]; rfl)]
    exact ih hn
  | @resume gw s hr ih =>
    intro hn
    rw [(resumeTask_frame gw s).1] at hn
    rw [(resumeTask_frame gw s).2 (by rw [hn]; rfl)]
    exact ih hn
  | @stop gw s hr ih =>
    intro hn
    rw [(stopTask_frame gw s).1] at hn
    rw [(stopTask_frame gw s).2 (by rw [hn]; rfl)]
    exact ih hn
  | reset hr ih => intro _; left; rfl

/-- The started state of the fixtures is reachable. -/
theorem reachable_runningState : Reachable runningState := by
  have h := Reachable.start (some "wallet") quietGateway "find empty accounts" []
    "model-x" Reachable.init
    (by intro pk r _ hc
        simp only [quietGateway, scenarioGateway, Except.ok.injEq] at hc
        rw [← hc]; decide)
  have e : (startTask (some "wallet") quietGateway initialState "find empty accounts" []
      "model-x").state = runningState := by
    simp [startTask, quietGateway, scenarioGateway, fetchTaskStatus, initialState,
      runningState]
  rwa [e] at h


/-! ### Poll ticks and reachable states: the claims -/

/-- C4: the tick stores the status string the probe returned.  On the running
task `t1`, a probe answering `finished` leaves the status `finished`, which is
not `completed` and is none of `idle`, `running`, `paused`, `completed`,
`failed`. -/
theorem finished_probe_leaves_finished :
    (fetchTaskStatus finishedGateway runningState runningState).1.taskStatus = "finished" ∧
    (fetchTaskStatus finishedGateway runningState runningState).1.taskStatus ≠ "completed" ∧
    (fetchTaskStatus finishedGateway runningState runningState).1.taskStatus ∉
      ["idle", "running", "paused", "completed", "failed"] := by
  have e : (fetchTaskStatus finishedGateway runningState runningState).1.taskStatus =
      "finished" := by
    simp [fetchTaskStatus, finishedGateway, scenarioGateway, runningState, initialState,
      emptyDetails, truthy, detailFetched, adoptScreenshots, adoptSteps, adoptOutput,
      adoptLiveUrl]
  rw [e]
  exact ⟨rfl, by decide, by decide⟩

/-- C5, refuted as stated: on the running task `t1` with no error recorded, a
tick whose probe answers `failed` leaves the error `null`. -/
theorem failed_probe_records_no_error :
    ¬ ((fetchTaskStatus failedGateway runningState runningState).1.taskStatus = "failed" ∧
       pollingActive (fetchTaskStatus failedGateway runningState runningState).1 = false ∧
       (fetchTaskStatus failedGateway runningState runningState).1.error ≠ none) := by
  have e : (fetchTaskStatus failedGateway runningState runningState).1.error = none := by
    simp [fetchTaskStatus, failedGateway, scenarioGateway, runningState, initialState,
      truthy, detailFetched]
  intro h
  exact h.2.2 e

/-- C5, amended: a tick whose status probe answers `failed` leaves the status
`failed`, makes polling inactive, issues the status probe only, and leaves the
error cell, like every cell but the status, as it was. -/
theorem failed_probe_sets_failed (gw : Gateway) (env s : AgentState) (id : String)
    (hid : env.taskId = some id) (ht : truthy id = true)
    (hs : gw.getStatus id = .ok "failed") :
    (fetchTaskStatus gw env s).1 = { s with taskStatus := "failed" } ∧
    (fetchTaskStatus gw env s).1.taskStatus = "failed" ∧
    pollingActive (fetchTaskStatus gw env s).1 = false ∧
    (fetchTaskStatus gw env s).1.error = s.error ∧
    (fetchTaskStatus gw env s).2 = [Call.getStatus id] := by
  rw [fetchTaskStatus_status_only gw env s id "failed" hid ht hs (by decide)]
  refine ⟨rfl, rfl, ?_, rfl, rfl⟩
  simp [pollingActive]

/-- Witness of the amended C5 on the running task `t1`. -/
theorem failed_probe_sets_failed_witness :
    (fetchTaskStatus failedGateway runningState runningState).1 =
        { runningState with taskStatus := "failed" } ∧
    (fetchTaskStatus failedGateway runningState runningState).1.taskStatus = "failed" ∧
    pollingActive (fetchTaskStatus failedGateway runningState runningState).1 = false ∧
    (fetchTaskStatus failedGateway runningState runningState).1.error = runningState.error ∧
    (fetchTaskStatus failedGateway runningState runningState).2 = [Call.getStatus "t1"] :=
  failed_probe_sets_failed failedGateway runningState runningState "t1" rfl (by decide) rfl

/-- C6, refuted as stated: after start and stop the cells are reachable, hold
task id `t1` and have status `idle`; after a start whose create call is
rejected they are reachable, hold no task id and have status `failed`. -/
theorem taskId_iff_not_idle_fails :
    (Reachable stoppedState ∧
      ¬ (stoppedState.taskId ≠ none ↔ stoppedState.taskStatus ≠ "idle")) ∧
    (Reachable failedStartState ∧
      ¬ (failedStartState.taskId ≠ none ↔ failedStartState.taskStatus ≠ "idle")) := by
  have e1 : stoppedState = { runningState with taskStatus := "idle" } := by
    simp [stoppedState, stopTask, startTask, quietGateway, scenarioGateway, fetchTaskStatus,
      initialState, runningState, truthy]
  have e2 : failedStartState.taskId = none ∧ failedStartState.taskStatus = "failed" := by
    simp [failedStartState, startTask, downGateway, initialState]
  refine ⟨⟨?_, ?_⟩, ?_, ?_⟩
  · exact Reachable.stop quietGateway
      (Reachable.start (some "wallet") quietGateway "find empty accounts" [] "model-x"
        Reachable.init
        (by intro pk r _ hc
            simp only [quietGateway, scenarioGateway, Except.ok.injEq] at hc
            rw [← hc]; decide))
  · rw [e1]; simp [runningState, initialState]
  · exact Reachable.start (some "wallet") downGateway "find empty accounts" [] "model-x"
      Reachable.init (by intro pk r _ hc; simp [downGateway] at hc)
  · rw [e2.1, e2.2]; simp

/-- C6, amended: in every reachable state whose status is neither `idle` nor
`failed` a task id is held. -/
theorem taskId_present_unless_idle_or_failed (s : AgentState) (h : Reachable s)
    (hidle : s.taskStatus ≠ "idle") (hfailed : s.taskStatus ≠ "failed") :
    s.taskId ≠ none := by
  intro hn
  rcases h.status_of_no_id hn with h1 | h1
  · exact hidle h1
  · exact hfailed h1

/-- Witness of the amended C6 at the started task `t1`. -/
theorem taskId_present_unless_idle_or_failed_witness : runningState.taskId ≠ none :=
  taskId_present_unless_idle_or_failed runningState reachable_runningState
    (by decide) (by decide)

/-- C7, refuted as stated: the hook reaches cells with status `running` in
which the polling guard fails.  A create call answering the empty id leaves
`taskId` empty with status `running`; a tick answer `running` that is handled
after a later `resetAgent` leaves `taskId` null with status `running`. -/
theorem polling_inactive_while_running :
    (emptyIdState.taskId = some "" ∧ emptyIdState.taskStatus = "running" ∧
      pollingActive emptyIdState = false ∧
      ¬ (pollingActive emptyIdState = true ↔
        (emptyIdState.taskStatus = "running" ∨ emptyIdState.taskStatus = "paused"))) ∧
    (lateTickState.taskId = none ∧ lateTickState.taskStatus = "running" ∧
      pollingActive lateTickState = false ∧
      ¬ (pollingActive lateTickState = true ↔
        (lateTickState.taskStatus = "running" ∨ lateTickState.taskStatus = "paused"))) := by
  have e1 : emptyIdState =
      { initialState with taskId := some "", taskStatus := "running" } := by
    simp [emptyIdState, startTask, emptyIdGateway, quietGateway, scenarioGateway,
      fetchTaskStatus, initialState]
  have e2 : lateTickState = { initialState with taskStatus := "running" } := by
    simp [lateTickState, fetchTaskStatus, quietGateway, scenarioGateway, runningState,
      initialState, emptyDetails, truthy, detailFetched, adoptScreenshots, adoptSteps,
      adoptOutput, adoptLiveUrl, resetAgent]
  refine ⟨?_, ?_⟩
  · rw [e1]
    refine ⟨rfl, rfl, by decide, ?_⟩
    intro h
    have := h.mpr (Or.inl rfl)
    exact absurd this (by decide)
  · rw [e2]
    refine ⟨rfl, rfl, by decide, ?_⟩
    intro h
    have := h.mpr (Or.inl rfl)
    exact absurd this (by decide)

/-- C7, amended: the polling timer is installed exactly when a non-empty task
id is held and the status is `running` or `paused`.  So in every state an
installed timer implies status `running` or `paused` (none in `idle`, none after
a terminal status); and in every state reached from the initial one by
operations each run to completion, with a gateway that assigns non-empty ids,
the timer is installed if and only if the status is `running` or `paused`. -/
theorem polling_iff_running_or_paused (s : AgentState) :
    (pollingActive s = true ↔
      (truthyOpt s.taskId = true ∧
        (s.taskStatus = "running" ∨ s.taskStatus = "paused"))) ∧
    (pollingActive s = true → (s.taskStatus = "running" ∨ s.taskStatus = "paused")) ∧
    (Reachable s →
      (pollingActive s = true ↔ (s.taskStatus = "running" ∨ s.taskStatus = "paused"))) := by
  have hguard : pollingActive s = true ↔
      (truthyOpt s.taskId = true ∧
        (s.taskStatus = "running" ∨ s.taskStatus = "paused")) := by
    simp only [pollingActive, Bool.and_eq_true, Bool.or_eq_true, beq_iff_eq]
  refine ⟨hguard, fun hp => (hguard.mp hp).2, ?_⟩
  intro h
  constructor
  · intro hp
    exact (hguard.mp hp).2
  · intro hst
    have hid : s.taskId ≠ none := by
      intro hn
      rcases h.status_of_no_id hn with h1 | h1 <;> rcases hst with h2 | h2 <;>
        rw [h1] at h2 <;> exact absurd h2 (by decide)
    exact hguard.mpr ⟨h.id_truthy hid, hst⟩

/-- Witness of the amended C7 at the started task `t1`. -/
theorem polling_iff_running_or_paused_witness :
    pollingActive runningState = true ↔
      (runningState.taskStatus = "running" ∨ runningState.taskStatus = "paused") :=
  (polling_iff_running_or_paused runningState).2.2 reachable_runningState


/-- C8, refuted as stated: the running task `t1` holds the steps `open` and
`click`; after a tick whose detail lists the single step `type`, the step list
is that single step: position 0 holds another step and position 1 is gone. -/
theorem tick_replaces_steps :
    twoStepState.taskSteps = [stepNamed "open", stepNamed "click"] ∧
    (fetchTaskStatus oneStepGateway twoStepState twoStepState).1.taskSteps =
      [stepNamed "type"] ∧
    ¬ (∀ (i : ℕ) (x : Step), twoStepState.taskSteps[i]? = some x →
        ∃ y : Step, (fetchTaskStatus oneStepGateway twoStepState twoStepState).1.taskSteps[i]? =
          some y ∧ y.payload = x.payload) := by
  have e : (fetchTaskStatus oneStepGateway twoStepState twoStepState).1.taskSteps =
      [stepNamed "type"] := by
    simp [fetchTaskStatus, oneStepGateway, scenarioGateway, twoStepState, runningState,
      initialState, emptyDetails, truthy, detailFetched, adoptScreenshots, adoptSteps,
      adoptOutput, adoptLiveUrl]
  refine ⟨rfl, e, ?_⟩
  intro h
  obtain ⟨y, hy, _⟩ := h 1 (stepNamed "click") (by simp [twoStepState])
  rw [e] at hy
  simp at hy

/-- C8, amended: after a tick that receives a detail carrying a step list, the
held step list is the list of the response, position by position, each step
with its members unchanged apart from `screenshot`; what was held before is
not consulted. -/
theorem tick_steps_are_response_steps (gw : Gateway) (env s : AgentState) (id st : String)
    (d : TaskDetails) (steps : List Step)
    (hid : env.taskId = some id) (ht : truthy id = true) (hs : gw.getStatus id = .ok st)
    (hf : detailFetched st = true) (hg : gw.get id = .ok d) (hsteps : d.steps = some steps) :
    (fetchTaskStatus gw env s).1.taskSteps.map Step.payload = steps.map Step.payload ∧
    (fetchTaskStatus gw env s).1.taskSteps.length = steps.length ∧
    (∀ s2 : AgentState,
      (fetchTaskStatus gw env s2).1.taskSteps = (fetchTaskStatus gw env s).1.taskSteps) ∧
    (∀ (i : ℕ) (x z : Step), s.taskSteps[i]? = some x → steps[i]? = some z → z.payload = x.payload →
      ∃ y : Step, (fetchTaskStatus gw env s).1.taskSteps[i]? = some y ∧
        y.payload = x.payload) := by
  have key : ∀ t : AgentState,
      (fetchTaskStatus gw env t).1.taskSteps =
        (adoptScreenshots gw id d { t with taskSteps := steps }).1.taskSteps := by
    intro t
    simp only [fetchTaskStatus, hid, ht, hs, hf, hg, if_true]
    simp only [adoptScreenshots, hsteps, adoptSteps]
    repeat' split
    all_goals rfl
  have indep : ∀ t : AgentState,
      (adoptScreenshots gw id d { t with taskSteps := steps }).1.taskSteps =
        (adoptScreenshots gw id d { s with taskSteps := steps }).1.taskSteps := by
    intro t
    simp only [adoptScreenshots, hsteps]
    repeat' split
    all_goals rfl
  have hp : (fetchTaskStatus gw env s).1.taskSteps.map Step.payload =
      steps.map Step.payload := by
    rcases (fetchTaskStatus_with_steps gw env s id st d steps hid ht hs hf hg hsteps).2.2
      with h | ⟨shots, h⟩
    · rw [h]
    · rw [h]; exact mergeFrom_payload shots steps 0
  refine ⟨hp, ?_, ?_, ?_⟩
  · have := congrArg List.length hp
    simpa using this
  · intro s2
    rw [key s2, key s, indep s2]
  · intro i x z _ hz hzx
    have h1 := congrArg (fun l => l[i]?) hp
    simp only [List.getElem?_map, hz, Option.map_some'] at h1
    cases hy : (fetchTaskStatus gw env s).1.taskSteps[i]? with
    | none => rw [hy] at h1; simp at h1
    | some y =>
      rw [hy] at h1
      simp only [Option.map_some', Option.some.injEq] at h1
      exact ⟨y, rfl, h1.trans hzx⟩

/-- Witness of the amended C8 on the two-step task and the one-step detail. -/
theorem tick_steps_are_response_steps_witness :
    (fetchTaskStatus oneStepGateway twoStepState twoStepState).1.taskSteps.map Step.payload =
      [stepNamed "type"].map Step.payload ∧
    (fetchTaskStatus oneStepGateway twoStepState twoStepState).1.taskSteps.length =
      [stepNamed "type"].length :=
  ⟨(tick_steps_are_response_steps oneStepGateway twoStepState twoStepState "t1" "running"
      { emptyDetails with steps := some [stepNamed "type"] } [stepNamed "type"]
      rfl (by decide) rfl (by decide) rfl rfl).1,
   (tick_steps_are_response_steps oneStepGateway twoStepState twoStepState "t1" "running"
      { emptyDetails with steps := some [stepNamed "type"] } [stepNamed "type"]
      rfl (by decide) rfl (by decide) rfl rfl).2.1⟩

/-- C9: step-merge idempotence.  Handling the same status, detail and
screenshot responses a second time leaves the step list and the progress that
the first handling left, whichever of the two closures (stale or fresh) the
second tick runs in. -/
theorem tick_idempotent (gw : Gateway) (env1 env2 s : AgentState)
    (henv : env2.taskId = env1.taskId) :
    (fetchTaskStatus gw env2 (fetchTaskStatus gw env1 s).1).1.taskSteps =
      (fetchTaskStatus gw env1 s).1.taskSteps ∧
    (fetchTaskStatus gw env2 (fetchTaskStatus gw env1 s).1).1.taskProgress =
      (fetchTaskStatus gw env1 s).1.taskProgress := by
  cases hid : env1.taskId with
  | none =>
    rw [fetchTaskStatus_no_id gw env2 _ (by rw [henv, hid]; rfl)]
    exact ⟨rfl, rfl⟩
  | some id =>
    rw [hid] at henv
    by_cases ht : truthy id = true
    · cases hs : gw.getStatus id with
      | error err => simp [fetchTaskStatus, hid, henv, ht, hs]
      | ok st =>
        by_cases hf : detailFetched st = true
        · cases hg : gw.get id with
          | error err => simp [fetchTaskStatus, hid, henv, ht, hs, hf, hg]
          | ok d =>
            cases hsteps : d.steps with
            | none =>
              simp [fetchTaskStatus, hid, henv, ht, hs, hf, hg, adoptScreenshots, adoptSteps,
                hsteps, (adoptOutput_fields _ _ _).2.2.1, (adoptOutput_fields _ _ _).2.2.2.1,
                (adoptLiveUrl_fields _ _ _).2.2.1, (adoptLiveUrl_fields _ _ _).2.2.2.1]
            | some steps =>
              have key : ∀ (e t : AgentState), e.taskId = some id →
                  (fetchTaskStatus gw e t).1.taskSteps =
                    (adoptScreenshots gw id d { s with taskSteps := steps }).1.taskSteps ∧
                  (fetchTaskStatus gw e t).1.taskProgress = progressOf st steps.length := by
                intro e t he
                refine ⟨?_, (fetchTaskStatus_with_steps gw e t id st d steps he ht hs hf hg
                  hsteps).2.1⟩
                simp only [fetchTaskStatus, he, ht, hs, hf, hg, if_true]
                simp only [adoptScreenshots, hsteps, adoptSteps]
                repeat' split
                all_goals rfl
              rw [(key env2 _ henv).1, (key env2 _ henv).2, (key env1 s hid).1,
                (key env1 s hid).2]
              exact ⟨rfl, rfl⟩
        · have hf2 : detailFetched st = false := by simpa using hf
          rw [fetchTaskStatus_status_only gw env2 _ id st henv ht hs hf2,
            fetchTaskStatus_status_only gw env1 s id st hid ht hs hf2]
          exact ⟨rfl, rfl⟩
    · have h1 : truthyOpt env1.taskId = false := by simp [hid, truthyOpt, ht]
      have h2 : truthyOpt env2.taskId = false := by simp [henv, truthyOpt, ht]
      rw [fetchTaskStatus_no_id gw env2 _ h2]
      exact ⟨rfl, rfl⟩

/-- Witness of C9 on the two-step task and the one-step detail. -/
theorem tick_idempotent_witness :
    (fetchTaskStatus oneStepGateway twoStepState
        (fetchTaskStatus oneStepGateway twoStepState twoStepState).1).1.taskSteps =
      (fetchTaskStatus oneStepGateway twoStepState twoStepState).1.taskSteps ∧
    (fetchTaskStatus oneStepGateway twoStepState
        (fetchTaskStatus oneStepGateway twoStepState twoStepState).1).1.taskProgress =
      (fetchTaskStatus oneStepGateway twoStepState twoStepState).1.taskProgress :=
  tick_idempotent oneStepGateway twoStepState twoStepState twoStepState rfl


/-- C10, refuted as stated: on the running task `t1`, a tick whose status is
`running` and whose detail lists eleven steps leaves progress
55 + 2^(-47), the binary64 value of `(11 / 20) * 100`, which is not
min(5 * 11, 99) = 55. -/
theorem progress_of_eleven_steps :
    (fetchTaskStatus elevenStepGateway runningState runningState).1.taskProgress =
      55 + 1 / 2 ^ 47 ∧
    (fetchTaskStatus elevenStepGateway runningState runningState).1.taskProgress ≠
      min (5 * 11) 99 := by
  have e := (fetchTaskStatus_with_steps elevenStepGateway runningState runningState "t1"
    "running" { emptyDetails with steps := some (List.replicate 11 (stepNamed "scroll")) }
    (List.replicate 11 (stepNamed "scroll")) rfl (by decide) rfl (by decide) rfl rfl).2.1
  rw [List.length_replicate, progressOf_small "running" (by decide) 11 (by norm_num)] at e
  rw [e]
  norm_num

/-- C10, amended: for a tick whose status is not `finished` and whose detail
carries a step list of length n, progress after the tick is
`Math.min((n / 20) * 100, 99)` in binary64 arithmetic.  It lies in [0, 100),
is non-decreasing in n, is 99 for every n >= 20, is 15 for n = 3, and is 5n
for every n < 20 except n = 11, where it is 55 + 2^(-47). -/
theorem tick_progress (gw : Gateway) (env s : AgentState) (id st : String)
    (d : TaskDetails) (steps : List Step)
    (hid : env.taskId = some id) (ht : truthy id = true) (hs : gw.getStatus id = .ok st)
    (hnf : st ≠ "finished") (hf : detailFetched st = true) (hg : gw.get id = .ok d)
    (hsteps : d.steps = some steps) :
    (fetchTaskStatus gw env s).1.taskProgress =
      min (jsMul (jsDiv (steps.length : ℚ) 20) 100) 99 ∧
    0 ≤ (fetchTaskStatus gw env s).1.taskProgress ∧
    (fetchTaskStatus gw env s).1.taskProgress < 100 ∧
    (20 ≤ steps.length → (fetchTaskStatus gw env s).1.taskProgress = 99) ∧
    (steps.length = 3 → (fetchTaskStatus gw env s).1.taskProgress = 15) ∧
    (steps.length < 20 → steps.length ≠ 11 →
      (fetchTaskStatus gw env s).1.taskProgress = 5 * (steps.length : ℚ)) ∧
    (steps.length = 11 → (fetchTaskStatus gw env s).1.taskProgress = 55 + 1 / 2 ^ 47) ∧
    (fetchTaskStatus gw env s).1.taskProgress = progressOf st steps.length ∧
    (∀ m n : ℕ, m ≤ n → progressOf st m ≤ progressOf st n) := by
  have e := (fetchTaskStatus_with_steps gw env s id st d steps hid ht hs hf hg hsteps).2.1
  rw [e]
  have hsmall := progressOf_small st hnf steps.length
  have hlarge := progressOf_large st hnf steps.length
  refine ⟨by simp [progressOf, hnf], ?_, ?_, hlarge, ?_, ?_, ?_, rfl,
    fun m n h => progressOf_mono st hnf m n h⟩
  · rcases Nat.lt_or_ge steps.length 20 with h | h
    · rw [hsmall h]
      split
      · norm_num
      · positivity
    · rw [hlarge h]; norm_num
  · have : progressOf st steps.length ≤ 99 := by
      unfold progressOf
      rw [if_neg hnf]
      exact min_le_right _ _
    linarith
  · intro h3
    rw [hsmall (by omega), h3]
    norm_num
  · intro h hne
    rw [hsmall h, if_neg hne]
  · intro h11
    rw [hsmall (by omega), if_pos h11]

/-- Witness of the amended C10 (scenario A): three steps give progress 15. -/
theorem tick_progress_witness :
    (fetchTaskStatus threeStepGateway runningState runningState).1.taskProgress = 15 :=
  (tick_progress threeStepGateway runningState runningState "t1" "running"
    { emptyDetails with steps := some (List.replicate 3 (stepNamed "scroll")) }
    (List.replicate 3 (stepNamed "scroll")) rfl (by decide) rfl (by decide) (by decide)
    rfl rfl).2.2.2.2.1 (by simp)


/-! ### Further lemmas on `fetchTaskStatus` -/

/-- A tick that receives a detail carrying no step list. -/
theorem fetchTaskStatus_without_steps (gw : Gateway) (env s : AgentState) (id st : String)
    (d : TaskDetails)
    (hid : env.taskId = some id) (ht : truthy id = true) (hs : gw.getStatus id = .ok st)
    (hf : detailFetched st = true) (hg : gw.get id = .ok d) (hsteps : d.steps = none) :
    fetchTaskStatus gw env s =
      (adoptOutput env d (adoptLiveUrl env d { s with taskStatus := st }),
        [Call.getStatus id, Call.get id]) := by
  simp [fetchTaskStatus, hid, ht, hs, hf, hg, adoptScreenshots, adoptSteps, hsteps]

/-- A tick whose status probe is rejected. -/
theorem fetchTaskStatus_probe_rejected (gw : Gateway) (env s : AgentState) (id : String)
    (err : GatewayError)
    (hid : env.taskId = some id) (ht : truthy id = true) (hs : gw.getStatus id = .error err) :
    fetchTaskStatus gw env s =
      ({ s with error := some "Failed to update task status" }, [Call.getStatus id]) := by
  simp [fetchTaskStatus, hid, ht, hs]

/-- A tick whose detail fetch is rejected. -/
theorem fetchTaskStatus_detail_rejected (gw : Gateway) (env s : AgentState) (id st : String)
    (err : GatewayError)
    (hid : env.taskId = some id) (ht : truthy id = true) (hs : gw.getStatus id = .ok st)
    (hf : detailFetched st = true) (hg : gw.get id = .error err) :
    fetchTaskStatus gw env s =
      ({ s with taskStatus := st, error := some "Failed to update task status" },
        [Call.getStatus id, Call.get id]) := by
  simp [fetchTaskStatus, hid, ht, hs, hf, hg]

/-- The tick never writes `isLoading`. -/
theorem fetchTaskStatus_isLoading (gw : Gateway) (env s : AgentState) :
    (fetchTaskStatus gw env s).1.isLoading = s.isLoading := by
  unfold fetchTaskStatus
  repeat' split
  all_goals
    simp [(adoptScreenshots_fields _ _ _ _).2.2.2.2.2.2, (adoptSteps_fields _ _ _).2.2.2.2.2,
      (adoptOutput_fields _ _ _).2.2.2.2.2.2, (adoptLiveUrl_fields _ _ _).2.2.2.2.2.2]

/-- Position `j` of the merge that starts counting at `i`. -/
theorem mergeFrom_getElem? (shots : List String) (steps : List Step) (i j : ℕ) :
    (mergeFrom shots i steps)[j]? =
      (steps[j]?).map (fun step => { step with screenshot := shots[i + j]? }) := by
  induction steps generalizing i j with
  | nil => simp [mergeFrom]
  | cons a t ih =>
    cases j with
    | zero => simp [mergeFrom]
    | succ k =>
      simp only [mergeFrom, List.getElem?_cons_succ, ih]
      have : i + 1 + k = i + (k + 1) := by omega
      rw [this]

/-- The merge keeps the length. -/
theorem mergeFrom_length (shots : List String) (steps : List Step) (i : ℕ) :
    (mergeFrom shots i steps).length = steps.length := by
  induction steps generalizing i with
  | nil => rfl
  | cons a t ih => simp [mergeFrom, ih]

/-! ### Claims on the merge of a tick -/

/-- C11, refuted as stated: on the running task `t1` with progress 0, a tick
whose probe answers `finished` and whose detail carries output `done` but no
step list leaves progress 0. -/
theorem finished_without_steps_keeps_progress :
    (fetchTaskStatus finishedGateway runningState runningState).1.taskStatus = "finished" ∧
    (fetchTaskStatus finishedGateway runningState runningState).1.taskProgress = 0 ∧
    (fetchTaskStatus finishedGateway runningState runningState).1.taskProgress ≠ 100 := by
  have e := fetchTaskStatus_without_steps finishedGateway runningState runningState "t1"
    "finished" { emptyDetails with output := some "done" } rfl (by decide) rfl (by decide)
    rfl rfl
  rw [e]
  refine ⟨?_, ?_, ?_⟩
  · simp [(adoptOutput_fields _ _ _).2.1, (adoptLiveUrl_fields _ _ _).2.1]
  · simp [(adoptOutput_fields _ _ _).2.2.1, (adoptLiveUrl_fields _ _ _).2.2.1, runningState,
      initialState]
  · simp [(adoptOutput_fields _ _ _).2.2.1, (adoptLiveUrl_fields _ _ _).2.2.1, runningState,
      initialState]

/-- C11, amended: for a tick whose status probe answers `finished`, progress
after the tick is 100 whenever the detail response carries a step list (an
empty one included); when the detail response carries none, or the detail
fetch is rejected, progress is what it was before the tick. -/
theorem finished_progress (gw : Gateway) (env s : AgentState) (id : String)
    (hid : env.taskId = some id) (ht : truthy id = true)
    (hs : gw.getStatus id = .ok "finished") :
    (∀ d steps, gw.get id = .ok d → d.steps = some steps →
      (fetchTaskStatus gw env s).1.taskProgress = 100) ∧
    (∀ d, gw.get id = .ok d → d.steps = none →
      (fetchTaskStatus gw env s).1.taskProgress = s.taskProgress) ∧
    (∀ err, gw.get id = .error err →
      (fetchTaskStatus gw env s).1.taskProgress = s.taskProgress) := by
  refine ⟨?_, ?_, ?_⟩
  · intro d steps hg hsteps
    rw [(fetchTaskStatus_with_steps gw env s id "finished" d steps hid ht hs (by decide) hg
      hsteps).2.1]
    simp [progressOf]
  · intro d hg hsteps
    rw [fetchTaskStatus_without_steps gw env s id "finished" d hid ht hs (by decide) hg hsteps]
    simp [(adoptOutput_fields _ _ _).2.2.1, (adoptLiveUrl_fields _ _ _).2.2.1]
  · intro err hg
    rw [fetchTaskStatus_detail_rejected gw env s id "finished" err hid ht hs (by decide) hg]

/-- Witness of the amended C11: the probe answers `finished` and the detail
carries an empty step list and output `done`. -/
theorem finished_progress_witness :
    (fetchTaskStatus
      (scenarioGateway "finished" { emptyDetails with steps := some [], output := some "done" }
        (.ok none)) runningState runningState).1.taskProgress = 100 :=
  (finished_progress
    (scenarioGateway "finished" { emptyDetails with steps := some [], output := some "done" }
      (.ok none)) runningState runningState "t1" rfl (by decide) rfl).1
    { emptyDetails with steps := some [], output := some "done" } [] rfl rfl

/-- The step list a tick stores when its detail carries a step list: the
positional merge when the screenshot fetch answers an object with a
`screenshots` list, the list of the detail otherwise. -/
theorem fetchTaskStatus_steps (gw : Gateway) (env s : AgentState) (id st : String)
    (d : TaskDetails) (steps : List Step)
    (hid : env.taskId = some id) (ht : truthy id = true) (hs : gw.getStatus id = .ok st)
    (hf : detailFetched st = true) (hg : gw.get id = .ok d) (hsteps : d.steps = some steps) :
    (∀ shots, 0 < steps.length →
      gw.getScreenshots id = .ok (some { screenshots := some shots }) →
      (fetchTaskStatus gw env s).1.taskSteps = mergeScreenshots steps shots ∧
      (fetchTaskStatus gw env s).2 =
        [Call.getStatus id, Call.get id, Call.getScreenshots id]) ∧
    (0 < steps.length →
      (gw.getScreenshots id = .ok none ∨
        gw.getScreenshots id = .ok (some { screenshots := none }) ∨
        ∃ err, gw.getScreenshots id = .error err) →
      (fetchTaskStatus gw env s).1.taskSteps = steps ∧
      (fetchTaskStatus gw env s).2 =
        [Call.getStatus id, Call.get id, Call.getScreenshots id]) ∧
    (steps.length = 0 →
      (fetchTaskStatus gw env s).1.taskSteps = steps ∧
      (fetchTaskStatus gw env s).2 = [Call.getStatus id, Call.get id]) := by
  refine ⟨?_, ?_, ?_⟩
  · intro shots hpos hshots
    simp [fetchTaskStatus, hid, ht, hs, hf, hg, adoptScreenshots, hsteps, hpos, hshots]
  · intro hpos hshots
    rcases hshots with h | h | ⟨err, h⟩ <;>
      simp [fetchTaskStatus, hid, ht, hs, hf, hg, adoptScreenshots, adoptSteps, hsteps, hpos, h]
  · intro hzero
    simp [fetchTaskStatus, hid, ht, hs, hf, hg, adoptScreenshots, adoptSteps, hsteps, hzero]

/-- C12: positional screenshot splice.  A tick whose detail carries the step
list S (not empty) and whose screenshot fetch answers the list P stores the
merge of S and P.  The merged list has the length of S; a position below both
lengths holds the step with that screenshot and its other members unchanged; a
position at or beyond the number of screenshots holds the step with no
screenshot; screenshots at positions at or beyond the number of steps play no
part. -/
theorem screenshot_splice (steps : List Step) (shots : List String) :
    (∀ (gw : Gateway) (env s : AgentState) (id st : String) (d : TaskDetails),
      env.taskId = some id → truthy id = true → gw.getStatus id = .ok st →
      detailFetched st = true → gw.get id = .ok d → d.steps = some steps →
      0 < steps.length → gw.getScreenshots id = .ok (some { screenshots := some shots }) →
      (fetchTaskStatus gw env s).1.taskSteps = mergeScreenshots steps shots) ∧
    (mergeScreenshots steps shots).length = steps.length ∧
    (∀ (i : ℕ) (step : Step) (shot : String), steps[i]? = some step → shots[i]? = some shot →
      (mergeScreenshots steps shots)[i]? =
        some { payload := step.payload, screenshot := some shot }) ∧
    (∀ (i : ℕ) (step : Step), steps[i]? = some step → shots.length ≤ i →
      (mergeScreenshots steps shots)[i]? =
        some { payload := step.payload, screenshot := none }) ∧
    mergeScreenshots steps shots = mergeScreenshots steps (shots.take steps.length) := by
  refine ⟨?_, mergeFrom_length shots steps 0, ?_, ?_, ?_⟩
  · intro gw env s id st d hid ht hs hf hg hsteps hpos hshots
    exact ((fetchTaskStatus_steps gw env s id st d steps hid ht hs hf hg hsteps).1 shots hpos
      hshots).1
  · intro i step shot hstep hshot
    simp [mergeScreenshots, mergeFrom_getElem?, hstep, hshot]
  · intro i step hstep hlen
    have : shots[i]? = none := List.getElem?_eq_none hlen
    simp [mergeScreenshots, mergeFrom_getElem?, hstep, this]
  · apply List.ext_getElem?
    intro i
    simp only [mergeScreenshots, mergeFrom_getElem?, Nat.zero_add]
    cases hs : steps[i]? with
    | none => rfl
    | some step =>
      have hi : i < steps.length := by
        by_contra h
        rw [List.getElem?_eq_none (by omega)] at hs
        exact absurd hs (by simp)
      simp [List.getElem?_take, hi]

/-- Witness of C12: a tick on task `t1` whose detail lists two steps and whose
screenshot fetch answers one screenshot. -/
theorem screenshot_splice_witness :
    (fetchTaskStatus spliceGateway runningState runningState).1.taskSteps =
      mergeScreenshots [stepNamed "open", stepNamed "click"] ["shot-0"] ∧
    (mergeScreenshots [stepNamed "open", stepNamed "click"] ["shot-0"])[0]? =
      some { payload := (stepNamed "open").payload, screenshot := some "shot-0" } ∧
    (mergeScreenshots [stepNamed "open", stepNamed "click"] ["shot-0"])[1]? =
      some { payload := (stepNamed "click").payload, screenshot := none } :=
  ⟨(screenshot_splice [stepNamed "open", stepNamed "click"] ["shot-0"]).1 spliceGateway
      runningState runningState "t1" "running"
      { emptyDetails with steps := some [stepNamed "open", stepNamed "click"] }
      rfl (by decide) rfl (by decide) rfl rfl (by decide) rfl,
   (screenshot_splice [stepNamed "open", stepNamed "click"] ["shot-0"]).2.2.1 0
      (stepNamed "open") "shot-0" rfl rfl,
   (screenshot_splice [stepNamed "open", stepNamed "click"] ["shot-0"]).2.2.2.1 1
      (stepNamed "click") rfl (by decide)⟩


/-- C13: the interval keeps calling the `fetchTaskStatus` of the render in
which the effect ran, and the effect runs again only when `taskId` or
`taskStatus` changes.  On the running task `t1` a first tick adopts live URL
`live-1` and output `out-1` and leaves `taskId` and `taskStatus` as they were;
the next tick of the same interval, whose detail carries `live-2` and `out-2`,
overwrites both, although both were non-empty before it.  Run from the
current render the same tick would have kept them. -/
theorem stale_tick_overwrites_output_and_liveUrl :
    (fetchTaskStatus (liveGateway "live-1" "out-1") runningState runningState).1 =
      { runningState with liveUrl := "live-1", taskOutput := "out-1" } ∧
    (fetchTaskStatus (liveGateway "live-2" "out-2") runningState
      (fetchTaskStatus (liveGateway "live-1" "out-1") runningState runningState).1).1 =
      { runningState with liveUrl := "live-2", taskOutput := "out-2" } ∧
    (fetchTaskStatus (liveGateway "live-2" "out-2")
      (fetchTaskStatus (liveGateway "live-1" "out-1") runningState runningState).1
      (fetchTaskStatus (liveGateway "live-1" "out-1") runningState runningState).1).1 =
      { runningState with liveUrl := "live-1", taskOutput := "out-1" } := by
  have e1 : (fetchTaskStatus (liveGateway "live-1" "out-1") runningState runningState).1 =
      { runningState with liveUrl := "live-1", taskOutput := "out-1" } := by
    rw [fetchTaskStatus_without_steps (liveGateway "live-1" "out-1") runningState
      runningState "t1" "running"
      { emptyDetails with live_url := some "live-1", output := some "out-1" }
      rfl (by decide) rfl (by decide) rfl rfl]
    simp [adoptOutput, adoptLiveUrl, emptyDetails, truthy, runningState, initialState]
  refine ⟨e1, ?_, ?_⟩
  · rw [e1, fetchTaskStatus_without_steps (liveGateway "live-2" "out-2") runningState
      _ "t1" "running"
      { emptyDetails with live_url := some "live-2", output := some "out-2" }
      rfl (by decide) rfl (by decide) rfl rfl]
    simp [adoptOutput, adoptLiveUrl, emptyDetails, truthy, runningState, initialState]
  · rw [e1, fetchTaskStatus_without_steps (liveGateway "live-2" "out-2") _
      _ "t1" "running"
      { emptyDetails with live_url := some "live-2", output := some "out-2" }
      rfl (by decide) rfl (by decide) rfl rfl]
    simp [adoptOutput, adoptLiveUrl, emptyDetails, truthy, runningState, initialState]

/-- C14, refuted as stated: on the running task `t1` (no steps, progress 0), a
tick whose screenshot fetch is rejected still stores the step and the progress
of the detail response; a tick whose probe answers `paused` and whose detail
fetch is rejected leaves the status `paused`. -/
theorem failing_call_does_not_skip_tick :
    (fetchTaskStatus noScreenshotGateway runningState runningState).1.taskSteps =
      [stepNamed "type"] ∧
    (fetchTaskStatus noScreenshotGateway runningState runningState).1.taskSteps ≠
      runningState.taskSteps ∧
    (fetchTaskStatus noScreenshotGateway runningState runningState).1.taskProgress = 5 ∧
    (fetchTaskStatus noScreenshotGateway runningState runningState).1.taskProgress ≠
      runningState.taskProgress ∧
    (fetchTaskStatus noDetailGateway runningState runningState).1.taskStatus = "paused" ∧
    (fetchTaskStatus noDetailGateway runningState runningState).1.taskStatus ≠
      runningState.taskStatus := by
  have e1 : (fetchTaskStatus noScreenshotGateway runningState runningState).1.taskSteps =
      [stepNamed "type"] := by
    simp [fetchTaskStatus, noScreenshotGateway, scenarioGateway, runningState, initialState,
      emptyDetails, truthy, detailFetched, adoptScreenshots, adoptSteps, adoptOutput,
      adoptLiveUrl]
  have e2 : (fetchTaskStatus noScreenshotGateway runningState runningState).1.taskProgress =
      5 := by
    rw [(fetchTaskStatus_with_steps noScreenshotGateway runningState runningState "t1"
      "running" { emptyDetails with steps := some [stepNamed "type"] } [stepNamed "type"]
      rfl (by decide) rfl (by decide) rfl rfl).2.1]
    rw [List.length_singleton, progressOf_small "running" (by decide) 1 (by norm_num)]
    norm_num
  have e3 : (fetchTaskStatus noDetailGateway runningState runningState).1.taskStatus =
      "paused" := by
    rw [fetchTaskStatus_detail_rejected noDetailGateway runningState runningState "t1"
      "paused" { responseError := none } rfl (by decide) rfl (by decide) rfl]
  refine ⟨e1, ?_, e2, ?_, e3, ?_⟩
  · rw [e1]; simp [runningState, initialState]
  · rw [e2]; simp [runningState, initialState]
  · rw [e3]; simp [runningState, initialState]

/-- C14, amended: a rejected status probe skips the tick (only the error is
set); a rejected detail fetch leaves the status the probe answered, with
progress, steps, output and live URL as before; a rejected screenshot fetch
leaves everything the tick merged from the status and detail responses and
only the screenshot splice is missing.  None of these sets the status to
`failed`: after a tick the status is `failed` only if it was before or the
status probe answered `failed`. -/
theorem failing_call_effects (gw : Gateway) (env s : AgentState) (id : String)
    (hid : env.taskId = some id) (ht : truthy id = true) :
    (∀ err, gw.getStatus id = .error err →
      (fetchTaskStatus gw env s).1 =
        { s with error := some "Failed to update task status" }) ∧
    (∀ st err, gw.getStatus id = .ok st → detailFetched st = true →
      gw.get id = .error err →
      (fetchTaskStatus gw env s).1 =
        { s with taskStatus := st, error := some "Failed to update task status" } ∧
      st ≠ "failed") ∧
    (∀ st d err, gw.getStatus id = .ok st → detailFetched st = true →
      gw.get id = .ok d → gw.getScreenshots id = .error err →
      (fetchTaskStatus gw env s).1 =
        adoptSteps st d (adoptOutput env d (adoptLiveUrl env d { s with taskStatus := st }))) ∧
    ((fetchTaskStatus gw env s).1.taskStatus = "failed" →
      s.taskStatus = "failed" ∨ gw.getStatus id = .ok "failed") := by
  refine ⟨?_, ?_, ?_, ?_⟩
  · intro err hs
    rw [fetchTaskStatus_probe_rejected gw env s id err hid ht hs]
  · intro st err hs hf hg
    rw [fetchTaskStatus_detail_rejected gw env s id st err hid ht hs hf hg]
    refine ⟨rfl, ?_⟩
    intro h
    rw [h] at hf
    exact absurd hf (by decide)
  · intro st d err hs hf hg hshots
    simp only [fetchTaskStatus, hid, ht, hs, hf, hg, if_true, adoptScreenshots, hshots]
    repeat' split
    all_goals rfl
  · intro hfailed
    cases hs : gw.getStatus id with
    | error err =>
      rw [fetchTaskStatus_probe_rejected gw env s id err hid ht hs] at hfailed
      exact Or.inl hfailed
    | ok st =>
      right
      by_cases hf : detailFetched st = true
      · cases hg : gw.get id with
        | error err =>
          rw [fetchTaskStatus_detail_rejected gw env s id st err hid ht hs hf hg] at hfailed
          exact congrArg Except.ok hfailed
        | ok d =>
          have e : (fetchTaskStatus gw env s).1.taskStatus = st := by
            simp [fetchTaskStatus, hid, ht, hs, hf, hg, (adoptScreenshots_fields _ _ _ _).2.1,
              (adoptSteps_fields _ _ _).2.1, (adoptOutput_fields _ _ _).2.1,
              (adoptLiveUrl_fields _ _ _).2.1]
          rw [e] at hfailed
          exact congrArg Except.ok hfailed
      · have hf2 : detailFetched st = false := by simpa using hf
        rw [fetchTaskStatus_status_only gw env s id st hid ht hs hf2] at hfailed
        exact congrArg Except.ok hfailed

/-- Witness of the amended C14: every call of the tick is rejected. -/
theorem failing_call_effects_witness :
    (fetchTaskStatus downGateway runningState runningState).1 =
      { runningState with error := some "Failed to update task status" } :=
  (failing_call_effects downGateway runningState runningState "t1" rfl (by decide)).1
    { responseError := none } rfl


/-! ### Claims on the control commands, reset and errors -/

/-- C15: when the gateway call of `pauseTask`, `resumeTask` or `stopTask` is
rejected, the command returns `false`, sets the error to its message and
leaves every other cell as it was. -/
theorem rejected_command_keeps_state (gw : Gateway) (s : AgentState) (id : String)
    (err : GatewayError) (hid : s.taskId = some id) (ht : truthy id = true) :
    (s.taskStatus = "running" → gw.pause id = .error err →
      (pauseTask gw s).state = { s with error := some "Failed to pause task" } ∧
        (pauseTask gw s).result = false) ∧
    (s.taskStatus = "paused" → gw.resume id = .error err →
      (resumeTask gw s).state = { s with error := some "Failed to resume task" } ∧
        (resumeTask gw s).result = false) ∧
    ((s.taskStatus = "running" ∨ s.taskStatus = "paused") → gw.stop id = .error err →
      (stopTask gw s).state = { s with error := some "Failed to stop task" } ∧
        (stopTask gw s).result = false) := by
  refine ⟨?_, ?_, ?_⟩
  · intro hs hg
    simp [pauseTask, hid, ht, hs, hg]
  · intro hs hg
    simp [resumeTask, hid, ht, hs, hg]
  · intro hs hg
    rcases hs with hs | hs <;> simp [stopTask, hid, ht, hs, hg]

/-- Witness of C15: stopping the running task `t1` through a gateway that
rejects every call. -/
theorem rejected_command_keeps_state_witness :
    (stopTask downGateway runningState).state =
        { runningState with error := some "Failed to stop task" } ∧
      (stopTask downGateway runningState).result = false :=
  (rejected_command_keeps_state downGateway runningState "t1" { responseError := none } rfl
    (by decide)).2.2 (Or.inl rfl) rfl

/-- C16, refuted as stated: a tick is issued on the running task `t1`, then
`stopTask` (respectively `resetAgent`) completes, then the responses of the
tick arrive: status `running`, live URL `live-1`, output `out-1`.  The cells
end with status `running` and that URL and output, not as the command left
them; after the stop the polling guard holds again. -/
theorem late_response_is_applied :
    (stopTask quietGateway runningState).state = { runningState with taskStatus := "idle" } ∧
    (fetchTaskStatus (liveGateway "live-1" "out-1") runningState
      (stopTask quietGateway runningState).state).1 =
      { runningState with liveUrl := "live-1", taskOutput := "out-1" } ∧
    pollingActive (fetchTaskStatus (liveGateway "live-1" "out-1") runningState
      (stopTask quietGateway runningState).state).1 = true ∧
    (fetchTaskStatus (liveGateway "live-1" "out-1") runningState
      (resetAgent runningState)).1 =
      { initialState with taskStatus := "running", liveUrl := "live-1",
                          taskOutput := "out-1" } := by
  have e1 : (stopTask quietGateway runningState).state =
      { runningState with taskStatus := "idle" } := by
    simp [stopTask, quietGateway, scenarioGateway, runningState, initialState, truthy]
  have e2 : (fetchTaskStatus (liveGateway "live-1" "out-1") runningState
      (stopTask quietGateway runningState).state).1 =
      { runningState with liveUrl := "live-1", taskOutput := "out-1" } := by
    rw [e1, fetchTaskStatus_without_steps (liveGateway "live-1" "out-1") runningState
      _ "t1" "running"
      { emptyDetails with live_url := some "live-1", output := some "out-1" }
      rfl (by decide) rfl (by decide) rfl rfl]
    simp [adoptOutput, adoptLiveUrl, emptyDetails, truthy, runningState, initialState]
  refine ⟨e1, e2, ?_, ?_⟩
  · rw [e2]; simp [pollingActive, truthyOpt, truthy, runningState, initialState]
  · rw [fetchTaskStatus_without_steps (liveGateway "live-1" "out-1") runningState
      _ "t1" "running"
      { emptyDetails with live_url := some "live-1", output := some "out-1" }
      rfl (by decide) rfl (by decide) rfl rfl]
    simp [adoptOutput, adoptLiveUrl, emptyDetails, truthy, runningState, initialState,
      resetAgent]

/-- C16, amended: the hook does not discard a late response.  When `stopTask`
or `resetAgent` completes between the request of a tick and its response,
handling the response writes to the cells the command left exactly what the
tick writes to any cells: the status becomes the status the probe answered,
and only `taskId` and `isLoading` are sure to be as the command left them. -/
theorem late_response_effects (gw gwLate : Gateway) (env s : AgentState) (id st : String)
    (hid : env.taskId = some id) (ht : truthy id = true)
    (hs : gwLate.getStatus id = .ok st) :
    (fetchTaskStatus gwLate env (stopTask gw s).state).1.taskStatus = st ∧
    (fetchTaskStatus gwLate env (stopTask gw s).state).1.taskId = (stopTask gw s).state.taskId ∧
    (fetchTaskStatus gwLate env (stopTask gw s).state).1.isLoading =
      (stopTask gw s).state.isLoading ∧
    (fetchTaskStatus gwLate env (resetAgent s)).1.taskStatus = st ∧
    (fetchTaskStatus gwLate env (resetAgent s)).1.taskId = none ∧
    (fetchTaskStatus gwLate env (resetAgent s)).1.isLoading = s.isLoading := by
  have hstatus : ∀ t : AgentState, (fetchTaskStatus gwLate env t).1.taskStatus = st := by
    intro t
    by_cases hf : detailFetched st = true
    · cases hg : gwLate.get id with
      | error err =>
        rw [fetchTaskStatus_detail_rejected gwLate env t id st err hid ht hs hf hg]
      | ok d =>
        simp [fetchTaskStatus, hid, ht, hs, hf, hg, (adoptScreenshots_fields _ _ _ _).2.1,
          (adoptSteps_fields _ _ _).2.1, (adoptOutput_fields _ _ _).2.1,
          (adoptLiveUrl_fields _ _ _).2.1]
    · have hf2 : detailFetched st = false := by simpa using hf
      rw [fetchTaskStatus_status_only gwLate env t id st hid ht hs hf2]
  refine ⟨hstatus _, fetchTaskStatus_taskId _ _ _, fetchTaskStatus_isLoading _ _ _,
    hstatus _, ?_, ?_⟩
  · rw [fetchTaskStatus_taskId]; rfl
  · rw [fetchTaskStatus_isLoading]; rfl

/-- Witness of the amended C16: the late probe answers `running` after the
stop of task `t1`. -/
theorem late_response_effects_witness :
    (fetchTaskStatus (liveGateway "live-1" "out-1") runningState
      (stopTask quietGateway runningState).state).1.taskStatus = "running" :=
  (late_response_effects quietGateway (liveGateway "live-1" "out-1") runningState
    runningState "t1" "running" rfl (by decide) rfl).1

/-- C17: `resetAgent` sets the seven task cells to their initial values
(`taskId` null, status `idle`, progress 0, no steps, empty output and live URL,
error null) whatever they were, and does not write `isLoading`; it is
idempotent, and two states that agree on `isLoading` reset to the same
state. -/
theorem resetAgent_initial (s t : AgentState) :
    (resetAgent s).taskId = none ∧ (resetAgent s).taskStatus = "idle" ∧
    (resetAgent s).taskProgress = 0 ∧ (resetAgent s).taskSteps = [] ∧
    (resetAgent s).taskOutput = "" ∧ (resetAgent s).liveUrl = "" ∧
    (resetAgent s).error = none ∧
    resetAgent s = { initialState with isLoading := s.isLoading } ∧
    resetAgent (resetAgent s) = resetAgent s ∧
    { resetAgent s with isLoading := t.isLoading } = resetAgent t := by
  refine ⟨rfl, rfl, rfl, rfl, rfl, rfl, rfl, rfl, rfl, rfl⟩


/-- A tick none of whose status and detail calls is rejected leaves the error
cell as it was. -/
theorem fetchTaskStatus_error_unchanged (gw : Gateway) (env s : AgentState)
    (hok : ∀ id, env.taskId = some id → truthy id = true →
      ∃ st, gw.getStatus id = .ok st ∧ (detailFetched st = true → ∃ d, gw.get id = .ok d)) :
    (fetchTaskStatus gw env s).1.error = s.error := by
  cases hid : env.taskId with
  | none => rw [fetchTaskStatus_no_id gw env s (by rw [hid]; rfl)]
  | some id =>
    by_cases ht : truthy id = true
    · obtain ⟨st, hs, hd⟩ := hok id hid ht
      by_cases hf : detailFetched st = true
      · obtain ⟨d, hg⟩ := hd hf
        simp [fetchTaskStatus, hid, ht, hs, hf, hg, (adoptScreenshots_fields _ _ _ _).2.2.2.2.2.1,
          (adoptSteps_fields _ _ _).2.2.2.2.1, (adoptOutput_fields _ _ _).2.2.2.2.2.1,
          (adoptLiveUrl_fields _ _ _).2.2.2.2.2.1]
      · have hf2 : detailFetched st = false := by simpa using hf
        rw [fetchTaskStatus_status_only gw env s id st hid ht hs hf2]
    · rw [fetchTaskStatus_no_id gw env s (by simp [hid, truthyOpt, ht])]

/-- C18, refuted as stated: the running task `t1` carries the error
`Failed to pause task`; a `pauseTask` whose gateway call succeeds returns
`true` and leaves that error, and so does a tick all of whose calls succeed. -/
theorem success_keeps_error :
    (pauseTask quietGateway erroredState).result = true ∧
    (pauseTask quietGateway erroredState).state.error = some "Failed to pause task" ∧
    (fetchTaskStatus quietGateway erroredState erroredState).1.error =
      some "Failed to pause task" := by
  refine ⟨?_, ?_, ?_⟩
  · simp [pauseTask, quietGateway, scenarioGateway, erroredState, runningState, initialState,
      truthy]
  · simp [pauseTask, quietGateway, scenarioGateway, erroredState, runningState, initialState,
      truthy]
  · rw [fetchTaskStatus_error_unchanged]
    · rfl
    · intro id _ _
      exact ⟨"running", rfl, fun _ => ⟨emptyDetails, rfl⟩⟩

/-- C18, amended: the error cell is cleared by `startTask` and `resetAgent`
only.  After a `startTask` with a wallet connected whose create call succeeds
(and whose inner `fetchTaskStatus`, if the render held a task id, has no
rejected status or detail call) the error is null, and so it is after
`resetAgent`; a `pauseTask`, `resumeTask` or `stopTask` whose gateway call
succeeds, and a tick whose status and detail calls succeed, leave the error
exactly as it was. -/
theorem error_cleared_by_start_and_reset_only (gw : Gateway) (s : AgentState) :
    (∀ pk desc domains model r, gw.create desc pk domains model = .ok r →
      (∀ id, s.taskId = some id → truthy id = true →
        ∃ st, gw.getStatus id = .ok st ∧ (detailFetched st = true → ∃ d, gw.get id = .ok d)) →
      (startTask (some pk) gw s desc domains model).state.error = none) ∧
    (resetAgent s).error = none ∧
    (∀ id, s.taskId = some id → truthy id = true →
      (s.taskStatus = "running" → gw.pause id = .ok () →
        (pauseTask gw s).state.error = s.error) ∧
      (s.taskStatus = "paused" → gw.resume id = .ok () →
        (resumeTask gw s).state.error = s.error) ∧
      ((s.taskStatus = "running" ∨ s.taskStatus = "paused") → gw.stop id = .ok () →
        (stopTask gw s).state.error = s.error)) ∧
    (∀ env : AgentState,
      (∀ id, env.taskId = some id → truthy id = true →
        ∃ st, gw.getStatus id = .ok st ∧ (detailFetched st = true → ∃ d, gw.get id = .ok d)) →
      (fetchTaskStatus gw env s).1.error = s.error) := by
  refine ⟨?_, rfl, ?_, ?_⟩
  · intro pk desc domains model r hc hok
    simp [startTask, hc, fetchTaskStatus_error_unchanged gw s _ hok]
  · intro id hid ht
    refine ⟨?_, ?_, ?_⟩
    · intro hs hg
      simp [pauseTask, hid, ht, hs, hg]
    · intro hs hg
      simp [resumeTask, hid, ht, hs, hg]
    · intro hs hg
      rcases hs with hs | hs <;> simp [stopTask, hid, ht, hs, hg]
  · intro env hok
    exact fetchTaskStatus_error_unchanged gw env s hok

/-- Witness of the amended C18: pausing the running task `t1` that carries an
error. -/
theorem error_cleared_by_start_and_reset_only_witness :
    (pauseTask quietGateway erroredState).state.error = erroredState.error :=
  ((error_cleared_by_start_and_reset_only quietGateway erroredState).2.2.1 "t1" rfl
    (by decide)).1 rfl rfl

/-! ### The session viewer and the task route -/

/-- C19: the message `browserbase-disconnected` sets the error the viewer shows
to the disconnect message and changes no cell of the controller, so a running
task stays `running` and polling stays as it was; every other message leaves
the error, and every other cell, unchanged. -/
theorem disconnect_message (data : MessageData) (d : Dashboard) :
    (data = MessageData.text "browserbase-disconnected" →
      (dashboardOnMessage data d).viewer =
        { d.viewer with
          error := some "Browser session disconnected. The session may have ended." }) ∧
    (data ≠ MessageData.text "browserbase-disconnected" → dashboardOnMessage data d = d) ∧
    (dashboardOnMessage data d).agent = d.agent ∧
    (d.agent.taskStatus = "running" → (dashboardOnMessage data d).agent.taskStatus = "running") ∧
    pollingActive (dashboardOnMessage data d).agent = pollingActive d.agent := by
  refine ⟨?_, ?_, rfl, fun h => h, rfl⟩
  · intro h
    simp [dashboardOnMessage, handleMessage, h]
  · intro h
    simp [dashboardOnMessage, handleMessage, h]

/-- Witness of C19: the disconnect message while task `t1` is running. -/
theorem disconnect_message_witness :
    (dashboardOnMessage (MessageData.text "browserbase-disconnected")
      { agent := runningState, viewer := liveViewer }).viewer =
      { liveViewer with
        error := some "Browser session disconnected. The session may have ended." } :=
  (disconnect_message (MessageData.text "browserbase-disconnected")
    { agent := runningState, viewer := liveViewer }).1 rfl

theorem foldl_setAdd_mem (xs acc : List String) (x : String) :
    x ∈ xs.foldl setAdd acc ↔ x ∈ acc ∨ x ∈ xs := by
  induction xs generalizing acc with
  | nil => simp
  | cons a t ih =>
    rw [List.foldl_cons, ih]
    unfold setAdd
    split
    · rename_i h
      constructor
      · rintro (h1 | h1)
        · exact Or.inl h1
        · exact Or.inr (List.mem_cons_of_mem _ h1)
      · rintro (h1 | h1)
        · exact Or.inl h1
        · rcases List.mem_cons.mp h1 with h2 | h2
          · exact Or.inl (h2 ▸ h)
          · exact Or.inr h2
    · simp only [List.mem_append, List.mem_singleton, List.mem_cons]
      tauto

theorem foldl_setAdd_nodup (xs acc : List String) (h : acc.Nodup) :
    (xs.foldl setAdd acc).Nodup := by
  induction xs generalizing acc with
  | nil => exact h
  | cons a t ih =>
    rw [List.foldl_cons]
    apply ih
    unfold setAdd
    split
    · exact h
    · rename_i hna
      rw [List.nodup_append]
      refine ⟨h, List.nodup_singleton a, ?_⟩
      intro x hx hy
      rw [List.mem_singleton] at hy
      exact hna (hy ▸ hx)

theorem foldl_setAdd_prefix (xs acc : List String) : acc <+: xs.foldl setAdd acc := by
  induction xs generalizing acc with
  | nil => exact List.prefix_refl _
  | cons a t ih =>
    rw [List.foldl_cons]
    refine List.IsPrefix.trans ?_ (ih _)
    unfold setAdd
    split
    · exact List.prefix_refl _
    · exact List.prefix_append _ _

theorem newSet_default : newSet DEFAULT_ALLOWED_DOMAINS = DEFAULT_ALLOWED_DOMAINS := by
  simp [newSet, DEFAULT_ALLOWED_DOMAINS, setAdd]

/-- C20: for every caller-supplied list A, the domain list `POST /tasks` hands
to `BrowserUseService.createTask` is `mergedDomains A`; it has no duplicates,
its elements are exactly those of the eight defaults and of A, it starts with
the default list, and for an empty A it is the default list. -/
theorem merged_domains_union (allowedDomains : List String) :
    (mergedDomains allowedDomains).Nodup ∧
    (∀ x, x ∈ mergedDomains allowedDomains ↔
      x ∈ DEFAULT_ALLOWED_DOMAINS ∨ x ∈ allowedDomains) ∧
    DEFAULT_ALLOWED_DOMAINS.length = 8 ∧
    DEFAULT_ALLOWED_DOMAINS <+: mergedDomains allowedDomains ∧
    mergedDomains [] = DEFAULT_ALLOWED_DOMAINS ∧
    (∀ (createTask : CreateTaskCall → Except ServiceError String) (body : TaskRequestBody)
      (call : CreateTaskCall), body.allowedDomains = BodyMember.list allowedDomains →
      call ∈ (postTasks createTask body).2 →
      call.allowedDomains = mergedDomains allowedDomains) := by
  have hsplit : mergedDomains allowedDomains =
      allowedDomains.foldl setAdd DEFAULT_ALLOWED_DOMAINS := by
    unfold mergedDomains newSet
    rw [List.foldl_append]
    exact congrArg (fun acc => allowedDomains.foldl setAdd acc) newSet_default
  refine ⟨?_, ?_, rfl, ?_, ?_, ?_⟩
  · exact foldl_setAdd_nodup _ _ List.nodup_nil
  · intro x
    rw [hsplit, foldl_setAdd_mem]
  · rw [hsplit]; exact foldl_setAdd_prefix _ _
  · simp [mergedDomains, newSet_default]
  · intro createTask body call hbody hcall
    unfold postTasks at hcall
    by_cases ht : memberTruthy body.task = true
    · simp only [ht, if_true, hbody, orDefault, spreadMember] at hcall
      cases hc : createTask (createTaskArguments body allowedDomains) with
      | ok r =>
        rw [hc] at hcall
        simp only [List.mem_singleton] at hcall
        rw [hcall]; rfl
      | error e =>
        rw [hc] at hcall
        simp only [List.mem_singleton] at hcall
        rw [hcall]; rfl
    · simp [ht] at hcall

/-- Witness of C20: a request that names one default domain and one new
domain. -/
theorem merged_domains_union_witness :
    priceCall ∈ (postTasks (fun _ => .ok "created") priceRequest).2 ∧
    priceCall.allowedDomains = mergedDomains ["birdeye.so", "example.org"] :=
  ⟨by simp [postTasks, priceRequest, priceCall, truthy, memberTruthy, orDefault, spreadMember,
      createTaskArguments],
   (merged_domains_union ["birdeye.so", "example.org"]).2.2.2.2.2 (fun _ => .ok "created")
      priceRequest priceCall rfl
      (by simp [postTasks, priceRequest, priceCall, truthy, memberTruthy, orDefault,
        spreadMember, createTaskArguments])⟩



/-! ### The task route, the keyword dispatch and the panel domains -/

/-- C21, refuted as stated: the body with task `x` and `allowedDomains: null`
has a non-empty task, yet the route answers 500 and
`BrowserUseService.createTask` is not invoked: the default `[]` applies to a
member that is not sent only, and the spread of `null` throws. -/
theorem null_domains_skip_create :
    postTasks (fun _ => .ok "created") nullDomainsRequest =
      ({ status := 500,
         body := .failure "Failed to create task" ErrorDetails.notIterableMessage }, []) ∧
    (postTasks (fun _ => .ok "created") nullDomainsRequest).2.length ≠ 1 := by
  refine ⟨by decide, by decide⟩

/-- C21, amended: `POST /tasks` answers 400 exactly when the `task` member is
falsy (not sent, `null`, `false`, 0 or the empty string); the body is then the
error `Task description is required` and `BrowserUseService.createTask` is not
invoked.  For a truthy task, `createTask` is invoked exactly once, with that
task, when `allowedDomains` is not sent or is iterable (an array or a string);
when it is any other value the route answers 500 `Failed to create task` and
`createTask` is not invoked. -/
theorem post_tasks_requires_task (createTask : CreateTaskCall → Except ServiceError String)
    (body : TaskRequestBody) :
    ((postTasks createTask body).1.status = 400 ↔ memberTruthy body.task = false) ∧
    (memberTruthy body.task = false ↔
      (body.task = .absent ∨ body.task = .null ∨ body.task = .bool false ∨
        body.task = .number 0 ∨ body.task = .text "")) ∧
    (memberTruthy body.task = false →
      (postTasks createTask body).1 =
        { status := 400,
          body := .failure "Task description is required" ErrorDetails.absent } ∧
      (postTasks createTask body).2 = []) ∧
    (∀ domains, memberTruthy body.task = true →
      spreadMember (orDefault body.allowedDomains (.list [])) = some domains →
      (postTasks createTask body).2 = [createTaskArguments body domains] ∧
      (createTaskArguments body domains).task = body.task ∧
      ((postTasks createTask body).1.status = 200 ∨
        (postTasks createTask body).1.status = 500)) ∧
    (memberTruthy body.task = true →
      spreadMember (orDefault body.allowedDomains (.list [])) = none →
      postTasks createTask body =
        ({ status := 500,
           body := .failure "Failed to create task" ErrorDetails.notIterableMessage }, [])) ∧
    (spreadMember (orDefault body.allowedDomains (.list [])) = none ↔
      (body.allowedDomains ≠ .absent ∧ (∀ items, body.allowedDomains ≠ .list items) ∧
        ∀ s, body.allowedDomains ≠ .text s)) := by
  have hfalsy : memberTruthy body.task = false →
      postTasks createTask body =
        ({ status := 400,
           body := .failure "Task description is required" ErrorDetails.absent }, []) := by
    intro h
    simp [postTasks, h]
  have hcall : ∀ domains, memberTruthy body.task = true →
      spreadMember (orDefault body.allowedDomains (.list [])) = some domains →
      (postTasks createTask body).2 = [createTaskArguments body domains] ∧
      (createTaskArguments body domains).task = body.task ∧
      ((postTasks createTask body).1.status = 200 ∨
        (postTasks createTask body).1.status = 500) := by
    intro domains ht hd
    unfold postTasks
    simp only [ht, if_true, hd]
    split
    · exact ⟨rfl, rfl, Or.inl rfl⟩
    · exact ⟨rfl, rfl, Or.inr rfl⟩
  have hthrow : memberTruthy body.task = true →
      spreadMember (orDefault body.allowedDomains (.list [])) = none →
      postTasks createTask body =
        ({ status := 500,
           body := .failure "Failed to create task" ErrorDetails.notIterableMessage }, []) := by
    intro ht hd
    simp [postTasks, ht, hd]
  refine ⟨⟨?_, ?_⟩, ?_, ?_, hcall, hthrow, ?_⟩
  · intro h400
    by_contra hne
    have ht : memberTruthy body.task = true := by simpa using hne
    cases hd : spreadMember (orDefault body.allowedDomains (.list [])) with
    | none =>
      rw [hthrow ht hd] at h400
      exact absurd h400 (by decide)
    | some domains =>
      rcases (hcall domains ht hd).2.2 with h | h <;> rw [h] at h400 <;>
        exact absurd h400 (by decide)
  · intro h
    rw [hfalsy h]
  · cases body.task with
    | absent => simp [memberTruthy]
    | null => simp [memberTruthy]
    | bool b => cases b <;> simp [memberTruthy]
    | number n => simp [memberTruthy]
    | text s => simp [memberTruthy, truthy]
    | list items => simp [memberTruthy]
    | object json => simp [memberTruthy]
  · intro h
    rw [hfalsy h]
    exact ⟨rfl, rfl⟩
  · cases body.allowedDomains <;> simp [orDefault, spreadMember]

/-- Witness of the amended C21: a body without `task`, and the body of
`priceRequest`. -/
theorem post_tasks_requires_task_witness :
    ((postTasks (fun _ => .ok "created") emptyRequest).1 =
        { status := 400,
          body := .failure "Task description is required" ErrorDetails.absent } ∧
      (postTasks (fun _ => .ok "created") emptyRequest).2 = []) ∧
    (postTasks (fun _ => .ok "created") priceRequest).2 =
      [createTaskArguments priceRequest ["birdeye.so", "example.org"]] :=
  ⟨(post_tasks_requires_task (fun _ => .ok "created") emptyRequest).2.2.1 rfl,
   ((post_tasks_requires_task (fun _ => .ok "created") priceRequest).2.2.2.1
      ["birdeye.so", "example.org"] (by decide) rfl).1⟩

/-- C29: the keyword rules of `executeBonkTask` send the text of the quick
task `Clean Token Accounts` and the text of `Analyze Wallet` to the token-launch
handler: neither contains `clean`, `empty account`, `burn` or `BONK`, and both
contain `token`.  Only `Launch Token` reaches the handler its label names. -/
theorem quick_task_dispatch :
    predefinedTasks.map (fun t => (t.label, executeBonkTaskHandler t.value)) =
      [("Clean Token Accounts", BonkHandler.handleTokenLaunch),
       ("Find BONK Stats", BonkHandler.handleBonkBurning),
       ("Launch Token", BonkHandler.handleTokenLaunch),
       ("Analyze Wallet", BonkHandler.handleTokenLaunch)] ∧
    executeBonkTaskHandler
        "Scan my wallet for empty token accounts and close them to recover SOL" ≠
      BonkHandler.handleTokenAccountCleanup ∧
    executeBonkTaskHandler "Analyze my wallet tokens and provide recommendations" ≠
      BonkHandler.handleWalletAnalysis := by
  refine ⟨by decide, by decide, by decide⟩

/-- The merged list is the default list when every requested domain is a
default domain. -/
theorem mergedDomains_of_defaults (allowedDomains : List String)
    (h : ∀ x ∈ allowedDomains, x ∈ DEFAULT_ALLOWED_DOMAINS) :
    mergedDomains allowedDomains = DEFAULT_ALLOWED_DOMAINS := by
  have hsplit : mergedDomains allowedDomains =
      allowedDomains.foldl setAdd DEFAULT_ALLOWED_DOMAINS := by
    unfold mergedDomains newSet
    rw [List.foldl_append]
    exact congrArg (fun acc => allowedDomains.foldl setAdd acc) newSet_default
  rw [hsplit]
  induction allowedDomains with
  | nil => rfl
  | cons a t ih =>
    have ha : setAdd DEFAULT_ALLOWED_DOMAINS a = DEFAULT_ALLOWED_DOMAINS := by
      unfold setAdd
      rw [if_pos (h a (List.mem_cons_self a t))]
    rw [List.foldl_cons, ha]
    refine ih (fun x hx => h x (List.mem_cons_of_mem a hx)) ?_
    unfold mergedDomains newSet
    rw [List.foldl_append]
    exact congrArg (fun acc => t.foldl setAdd acc) newSet_default

/-- The four lists `handleStartTask` can build. -/
theorem panelAllowedDomains_cases (taskInput : String) :
    panelAllowedDomains taskInput = [] ∨
    panelAllowedDomains taskInput = ["letsbonk.fun"] ∨
    panelAllowedDomains taskInput = ["birdeye.so", "dexscreener.com"] ∨
    panelAllowedDomains taskInput = ["letsbonk.fun", "birdeye.so", "dexscreener.com"] := by
  unfold panelAllowedDomains
  split <;> split <;> simp

/-- C30: for every task text, the domain list `handleStartTask` derives is a
sub-list of `DEFAULT_ALLOWED_DOMAINS`, so the list `POST /tasks` merges from it
is the default list, in default order, and this is the list of the one
`createTask` call a task started from the panel leads to. -/
theorem panel_domains_merge_to_defaults (taskInput wallet selectedModel : String)
    (createTask : CreateTaskCall → Except ServiceError String) :
    (panelAllowedDomains taskInput).Sublist DEFAULT_ALLOWED_DOMAINS ∧
    mergedDomains (panelAllowedDomains taskInput) = DEFAULT_ALLOWED_DOMAINS ∧
    (postTasks createTask (panelRequestBody taskInput wallet selectedModel)).2.map
        CreateTaskCall.allowedDomains =
      if truthy taskInput then [DEFAULT_ALLOWED_DOMAINS] else [] := by
  have hsub : (panelAllowedDomains taskInput).Sublist DEFAULT_ALLOWED_DOMAINS := by
    rcases panelAllowedDomains_cases taskInput with h | h | h | h <;> rw [h] <;> decide
  have hmerge : mergedDomains (panelAllowedDomains taskInput) = DEFAULT_ALLOWED_DOMAINS :=
    mergedDomains_of_defaults _ (fun x hx => hsub.subset hx)
  refine ⟨hsub, hmerge, ?_⟩
  unfold postTasks panelRequestBody
  by_cases ht : truthy taskInput = true
  · simp only [memberTruthy, ht, if_true, orDefault, spreadMember]
    split <;> simp [createTaskArguments, hmerge]
  · simp [memberTruthy, ht]


/-! ### Solana reads -/

/-- C22: for an address that fails the public-key check, each wallet route
answers 400 `Invalid wallet address` with no service operation invoked and no
RPC call issued, and each read operation of the Solana service fails with no
RPC call issued. -/
theorem invalid_address_rejected (validKey : String → Bool) (rpc : Rpc)
    (walletAddress : String) (h : validKey walletAddress = false) :
    (balanceRoute validKey rpc walletAddress = invalidWalletAddress ∧
      tokensRoute validKey rpc walletAddress = invalidWalletAddress ∧
      emptyAccountsRoute validKey rpc walletAddress = invalidWalletAddress ∧
      bonkRoute validKey rpc walletAddress = invalidWalletAddress) ∧
    (invalidWalletAddress.status = 400 ∧
      invalidWalletAddress.body = .failure "Invalid wallet address" ∧
      invalidWalletAddress.ops = [] ∧ invalidWalletAddress.rpcCalls = []) ∧
    (Backend.getSolBalance validKey rpc walletAddress =
        (.error SolanaError.invalidPublicKey, []) ∧
      Backend.getTokenAccounts validKey rpc walletAddress =
        (.error SolanaError.invalidPublicKey, []) ∧
      Backend.getEmptyTokenAccounts validKey rpc walletAddress =
        (.error SolanaError.invalidPublicKey, []) ∧
      Backend.getBonkBalance validKey rpc walletAddress =
        (.error SolanaError.invalidPublicKey, []) ∧
      Backend.estimateReclaimableSol validKey rpc walletAddress =
        (.error SolanaError.invalidPublicKey, [])) := by
  have ht : Backend.getTokenAccounts validKey rpc walletAddress =
      (.error SolanaError.invalidPublicKey, []) := by
    simp [Backend.getTokenAccounts, h]
  have he : Backend.getEmptyTokenAccounts validKey rpc walletAddress =
      (.error SolanaError.invalidPublicKey, []) := by
    simp [Backend.getEmptyTokenAccounts, ht]
  refine ⟨⟨?_, ?_, ?_, ?_⟩, ⟨rfl, rfl, rfl, rfl⟩, ?_, ht, he, ?_, ?_⟩
  · simp [balanceRoute, h]
  · simp [tokensRoute, h]
  · simp [emptyAccountsRoute, h]
  · simp [bonkRoute, h]
  · simp [Backend.getSolBalance, h]
  · simp [Backend.getBonkBalance, ht]
  · simp [Backend.estimateReclaimableSol, he]

/-- Witness of C22: the address `not-a-key`. -/
theorem invalid_address_rejected_witness :
    balanceRoute onlyBonkKey scenarioRpc "not-a-key" = invalidWalletAddress ∧
    Backend.estimateReclaimableSol onlyBonkKey scenarioRpc "not-a-key" =
      (.error SolanaError.invalidPublicKey, []) :=
  ⟨(invalid_address_rejected onlyBonkKey scenarioRpc "not-a-key" (by decide)).1.1,
   (invalid_address_rejected onlyBonkKey scenarioRpc "not-a-key"
      (by decide)).2.2.2.2.2.2⟩

/-- What the token-account reads return when the key is valid and the RPC call
succeeds. -/
theorem backend_reads_ok (validKey : String → Bool) (rpc : Rpc) (walletAddress : String)
    (value : List ParsedAccount) (hv : validKey walletAddress = true)
    (hr : rpc.getParsedTokenAccountsByOwner walletAddress = .ok value) :
    (Backend.getTokenAccounts validKey rpc walletAddress).1 =
      .ok (value.map formatTokenAccount) ∧
    (Backend.getEmptyTokenAccounts validKey rpc walletAddress).1 =
      .ok (filterEmpty (value.map formatTokenAccount)) ∧
    (Backend.getBonkBalance validKey rpc walletAddress).1 =
      .ok (bonkAmount (value.map formatTokenAccount)) ∧
    (Backend.estimateReclaimableSol validKey rpc walletAddress).1 =
      .ok (reclaimable (filterEmpty (value.map formatTokenAccount))) := by
  have ht : Backend.getTokenAccounts validKey rpc walletAddress =
      (.ok (value.map formatTokenAccount),
        [RpcCall.getParsedTokenAccountsByOwner walletAddress]) := by
    simp [Backend.getTokenAccounts, hv, hr]
  have he : Backend.getEmptyTokenAccounts validKey rpc walletAddress =
      (.ok (filterEmpty (value.map formatTokenAccount)),
        [RpcCall.getParsedTokenAccountsByOwner walletAddress]) := by
    simp [Backend.getEmptyTokenAccounts, ht]
  refine ⟨by rw [ht], by rw [he], ?_, ?_⟩
  · simp [Backend.getBonkBalance, ht]
  · simp [Backend.estimateReclaimableSol, he]

/-- What the token-account reads of the frontend service return when the RPC
call succeeds. -/
theorem frontend_reads_ok (rpc : Rpc) (publicKey : String) (value : List ParsedAccount)
    (hr : rpc.getParsedTokenAccountsByOwner publicKey = .ok value) :
    (Frontend.getTokenAccounts rpc publicKey).1 = .ok (value.map formatTokenAccount) ∧
    (Frontend.getEmptyAccounts rpc publicKey).1 =
      .ok (filterEmpty (value.map formatTokenAccount)) ∧
    (Frontend.getBonkBalance rpc publicKey).1 =
      .ok (bonkAmount (value.map formatTokenAccount)) ∧
    (Frontend.estimateReclaimableSol rpc publicKey).1 =
      .ok (reclaimable (filterEmpty (value.map formatTokenAccount))) := by
  have ht : Frontend.getTokenAccounts rpc publicKey =
      (.ok (value.map formatTokenAccount),
        [RpcCall.getParsedTokenAccountsByOwner publicKey]) := by
    simp [Frontend.getTokenAccounts, hr]
  have he : Frontend.getEmptyAccounts rpc publicKey =
      (.ok (filterEmpty (value.map formatTokenAccount)),
        [RpcCall.getParsedTokenAccountsByOwner publicKey]) := by
    simp [Frontend.getEmptyAccounts, ht]
  refine ⟨by rw [ht], by rw [he], ?_, ?_⟩
  · simp [Frontend.getBonkBalance, ht]
  · simp [Frontend.estimateReclaimableSol, he]

/-- C23: when the account query succeeds, `getEmptyTokenAccounts` (backend) and
`getEmptyAccounts` (frontend) return the accounts of amount 0, and only those,
in the order `getTokenAccounts` lists them. -/
theorem empty_accounts_are_zero_accounts (validKey : String → Bool) (rpc : Rpc)
    (walletAddress : String) (value : List ParsedAccount)
    (hv : validKey walletAddress = true)
    (hr : rpc.getParsedTokenAccountsByOwner walletAddress = .ok value) :
    (Backend.getTokenAccounts validKey rpc walletAddress).1 =
      .ok (value.map formatTokenAccount) ∧
    (Backend.getEmptyTokenAccounts validKey rpc walletAddress).1 =
      .ok (filterEmpty (value.map formatTokenAccount)) ∧
    (Frontend.getEmptyAccounts rpc walletAddress).1 =
      .ok (filterEmpty (value.map formatTokenAccount)) ∧
    (filterEmpty (value.map formatTokenAccount)).Sublist (value.map formatTokenAccount) ∧
    (∀ account, account ∈ filterEmpty (value.map formatTokenAccount) ↔
      account ∈ value.map formatTokenAccount ∧ account.amount = some 0) ∧
    (filterEmpty (value.map formatTokenAccount)).length =
      (value.map formatTokenAccount).countP (fun account => account.amount == some 0) := by
  refine ⟨(backend_reads_ok validKey rpc walletAddress value hv hr).1,
    (backend_reads_ok validKey rpc walletAddress value hv hr).2.1,
    (frontend_reads_ok rpc walletAddress value hr).2.1, ?_, ?_, ?_⟩
  · exact List.filter_sublist _
  · intro account
    simp [filterEmpty, List.mem_filter]
  · simp [filterEmpty, List.countP_eq_length_filter]

/-- Witness of C23 (scenario C): four accounts, three of amount 0. -/
theorem empty_accounts_are_zero_accounts_witness :
    (Backend.getEmptyTokenAccounts onlyBonkKey scenarioRpc BONK_TOKEN_ADDRESS).1 =
      .ok (filterEmpty (scenarioWallet.map formatTokenAccount)) ∧
    (scenarioWallet.map formatTokenAccount).length = 4 ∧
    (filterEmpty (scenarioWallet.map formatTokenAccount)).length = 3 :=
  ⟨(empty_accounts_are_zero_accounts onlyBonkKey scenarioRpc BONK_TOKEN_ADDRESS scenarioWallet
      (by decide) rfl).2.1, rfl, by decide⟩


/-- Rounding to binary64 raises a positive number by at most one part in
2^52. -/
theorem fl_upper {q : ℚ} (hq : 0 < q) : fl q ≤ q * (1 + 1 / 2 ^ 52) := by
  unfold fl
  rw [if_neg hq.ne', abs_of_pos hq]
  set e := Int.log 2 q with he
  have hu : (0 : ℚ) < (2 : ℚ) ^ (e - 52) := by positivity
  have hle : (2 : ℚ) ^ e ≤ q := by
    have := Int.zpow_log_le_self (b := 2) (r := q) (by norm_num) hq
    exact_mod_cast this
  have hsplit : (2 : ℚ) ^ (e - 52) = (2 : ℚ) ^ e / 2 ^ 52 := by
    rw [zpow_sub₀ (by norm_num)]; norm_num
  have hr : (roundHalfEven (q / (2 : ℚ) ^ (e - 52)) : ℚ) ≤ q / (2 : ℚ) ^ (e - 52) + 1 := by
    have h1 : roundHalfEven (q / (2 : ℚ) ^ (e - 52)) ≤ ⌊q / (2 : ℚ) ^ (e - 52)⌋ + 1 := by
      unfold roundHalfEven
      split_ifs <;> omega
    have h2 : ((⌊q / (2 : ℚ) ^ (e - 52)⌋ : ℤ) : ℚ) ≤ q / (2 : ℚ) ^ (e - 52) := Int.floor_le _
    have h3 : (roundHalfEven (q / (2 : ℚ) ^ (e - 52)) : ℚ) ≤
        ((⌊q / (2 : ℚ) ^ (e - 52)⌋ + 1 : ℤ) : ℚ) := by exact_mod_cast h1
    push_cast at h3
    linarith
  have h5 : roundHalfEven (q / (2 : ℚ) ^ (e - 52)) * (2 : ℚ) ^ (e - 52) ≤
      (q / (2 : ℚ) ^ (e - 52) + 1) * (2 : ℚ) ^ (e - 52) :=
    mul_le_mul_of_nonneg_right hr hu.le
  have h6 : (q / (2 : ℚ) ^ (e - 52) + 1) * (2 : ℚ) ^ (e - 52) = q + (2 : ℚ) ^ (e - 52) := by
    field_simp
  have h7 : (2 : ℚ) ^ (e - 52) ≤ q / 2 ^ 52 := by
    rw [hsplit]; exact div_le_div_of_nonneg_right hle (by positivity)
  calc roundHalfEven (q / (2 : ℚ) ^ (e - 52)) * (2 : ℚ) ^ (e - 52)
      ≤ q + (2 : ℚ) ^ (e - 52) := by rw [← h6]; exact h5
    _ ≤ q + q / 2 ^ 52 := by linarith
    _ = q * (1 + 1 / 2 ^ 52) := by ring

/-- The number the literal `0.002` denotes. -/
theorem rentPerAccount_eq :
    rentPerAccount = 4611686018427388 * (2 : ℚ) ^ ((-9 : ℤ) - 52) :=
  fl_eq_of (-9) 4611686018427388 (by norm_num) (by norm_num) (by norm_num) (by norm_num)

/-- In binary64, `3 * 0.002` is the number the literal `0.006` denotes. -/
theorem three_rents : jsMul 3 rentPerAccount = fl (6 / 1000) := by
  have h1 : fl (3 * (4611686018427388 * (2 : ℚ) ^ ((-9 : ℤ) - 52))) =
      6917529027641082 * (2 : ℚ) ^ ((-8 : ℤ) - 52) :=
    fl_eq_of (-8) 6917529027641082 (by norm_num) (by norm_num) (by norm_num) (by norm_num)
  have h2 : fl ((6 : ℚ) / 1000) = 6917529027641082 * (2 : ℚ) ^ ((-8 : ℤ) - 52) :=
    fl_eq_of (-8) 6917529027641082 (by norm_num) (by norm_num) (by norm_num) (by norm_num)
  rw [jsMul, rentPerAccount_eq, h1, h2]

/-- A tie above an odd integer rounds up to the even neighbour. -/
theorem roundHalfEven_tie_odd {q : ℚ} {k : ℤ} (h : q = (k : ℚ) + 1 / 2) (hodd : k % 2 = 1) :
    roundHalfEven q = k + 1 := by
  have hf : ⌊q⌋ = k := Int.floor_eq_iff.mpr ⟨by rw [h]; linarith, by rw [h]; linarith⟩
  unfold roundHalfEven
  rw [hf]
  have h1 : ¬ (q - (k : ℚ) < 1 / 2) := by rw [h]; simp
  have h2 : ¬ ((1 : ℚ) / 2 < q - (k : ℚ)) := by rw [h]; simp
  have h3 : ¬ (k % 2 = 0) := by omega
  rw [if_neg h1, if_neg h2, if_neg h3]

/-- The binary64 value of a number that lies halfway between two neighbours,
the lower one with an odd significand. -/
theorem fl_eq_of_tie {q : ℚ} (e k : ℤ) (h1 : (2 : ℚ) ^ e ≤ q) (h2 : q < (2 : ℚ) ^ (e + 1))
    (h3 : q / (2 : ℚ) ^ (e - 52) = (k : ℚ) + 1 / 2) (hodd : k % 2 = 1) :
    fl q = ((k + 1 : ℤ) : ℚ) * (2 : ℚ) ^ (e - 52) := by
  have hq : 0 < q := lt_of_lt_of_le (by positivity) h1
  unfold fl
  rw [if_neg hq.ne', log_two_eq h1 h2, roundHalfEven_tie_odd h3 hodd]

/-- In binary64, `9 * 0.002` is 5188146770730812 / 2^58, one unit in the last
place above the number the literal `0.018` denotes. -/
theorem nine_rents :
    jsMul 9 rentPerAccount = 5188146770730812 / 2 ^ 58 ∧
    fl (18 / 1000) = 5188146770730811 / 2 ^ 58 := by
  have h1 : fl (9 * (4611686018427388 * (2 : ℚ) ^ ((-9 : ℤ) - 52))) =
      ((5188146770730811 + 1 : ℤ) : ℚ) * (2 : ℚ) ^ ((-6 : ℤ) - 52) :=
    fl_eq_of_tie (-6) 5188146770730811 (by norm_num) (by norm_num) (by norm_num)
      (by norm_num)
  have h2 : fl ((18 : ℚ) / 1000) = 5188146770730811 * (2 : ℚ) ^ ((-6 : ℤ) - 52) :=
    fl_eq_of (-6) 5188146770730811 (by norm_num) (by norm_num) (by norm_num) (by norm_num)
  constructor
  · rw [jsMul, rentPerAccount_eq, h1]; norm_num
  · rw [h2]; norm_num

/-- The estimate for `n` empty accounts lies within rounding of `n * 2 / 1000`. -/
theorem reclaimable_near (emptyAccounts : List TokenAccount) :
    (emptyAccounts.length : ℚ) * (2 / 1000) * (1 - 1 / 2 ^ 52) ^ 2 ≤
      reclaimable emptyAccounts ∧
    reclaimable emptyAccounts ≤
      (emptyAccounts.length : ℚ) * (2 / 1000) * (1 + 1 / 2 ^ 52) ^ 2 := by
  unfold reclaimable jsMul
  have hr1 : (2 : ℚ) / 1000 * (1 - 1 / 2 ^ 52) ≤ rentPerAccount :=
    fl_lower (by norm_num)
  have hr2 : rentPerAccount ≤ (2 : ℚ) / 1000 * (1 + 1 / 2 ^ 52) := fl_upper (by norm_num)
  have hrpos : (0 : ℚ) < rentPerAccount := lt_of_lt_of_le (by norm_num) hr1
  rcases Nat.eq_zero_or_pos emptyAccounts.length with h0 | hpos
  · rw [h0]
    simp [fl]
  · have hn : (0 : ℚ) < (emptyAccounts.length : ℚ) := by exact_mod_cast hpos
    have hq : (0 : ℚ) < (emptyAccounts.length : ℚ) * rentPerAccount := mul_pos hn hrpos
    have h1 := fl_lower hq
    have h2 := fl_upper hq
    have ha : (0 : ℚ) ≤ 1 - 1 / 2 ^ 52 := by norm_num
    have hb : (0 : ℚ) ≤ 1 + 1 / 2 ^ 52 := by norm_num
    constructor
    · calc (emptyAccounts.length : ℚ) * (2 / 1000) * (1 - 1 / 2 ^ 52) ^ 2
          = (emptyAccounts.length : ℚ) * (2 / 1000 * (1 - 1 / 2 ^ 52)) * (1 - 1 / 2 ^ 52) := by
            ring
        _ ≤ (emptyAccounts.length : ℚ) * rentPerAccount * (1 - 1 / 2 ^ 52) :=
            mul_le_mul_of_nonneg_right (mul_le_mul_of_nonneg_left hr1 hn.le) ha
        _ ≤ _ := h1
    · calc fl ((emptyAccounts.length : ℚ) * rentPerAccount)
          ≤ (emptyAccounts.length : ℚ) * rentPerAccount * (1 + 1 / 2 ^ 52) := h2
        _ ≤ (emptyAccounts.length : ℚ) * (2 / 1000 * (1 + 1 / 2 ^ 52)) * (1 + 1 / 2 ^ 52) :=
            mul_le_mul_of_nonneg_right (mul_le_mul_of_nonneg_left hr2 hn.le) hb
        _ = _ := by ring

/-- A refresh keeps `reclaimableSol` equal to `emptyAccounts.length * 0.002`. -/
theorem fetchWalletData_reclaimable (reads : WalletReads) (s : WalletState)
    (h : s.reclaimableSol = reclaimable s.emptyAccounts) :
    (fetchWalletData reads s).reclaimableSol =
      reclaimable (fetchWalletData reads s).emptyAccounts := by
  unfold fetchWalletData refreshFailed
  repeat' split
  all_goals first
    | exact h
    | rfl

/-- C24, refuted as stated: for a wallet with nine accounts of amount 0,
`estimateReclaimableSol` returns 5188146770730812 / 2^58, the binary64 product
`9 * 0.002` (printed 0.018000000000000002); this is neither the number `0.018`
nor 9 * 2/1000. -/
theorem nine_empty_accounts_estimate :
    (Backend.estimateReclaimableSol onlyBonkKey nineEmptyRpc BONK_TOKEN_ADDRESS).1 =
      .ok (5188146770730812 / 2 ^ 58) ∧
    (Frontend.estimateReclaimableSol nineEmptyRpc BONK_TOKEN_ADDRESS).1 =
      .ok (5188146770730812 / 2 ^ 58) ∧
    (5188146770730812 / 2 ^ 58 : ℚ) ≠ fl (18 / 1000) ∧
    (5188146770730812 / 2 ^ 58 : ℚ) ≠ 9 * (2 / 1000) := by
  have hlen : (filterEmpty ((List.replicate 9 (parsedAccount "acc" "mint" (some 0))).map
      formatTokenAccount)).length = 9 := by decide
  have hval : reclaimable (filterEmpty ((List.replicate 9
      (parsedAccount "acc" "mint" (some 0))).map formatTokenAccount)) =
      5188146770730812 / 2 ^ 58 := by
    unfold reclaimable
    rw [hlen]
    exact_mod_cast nine_rents.1
  refine ⟨?_, ?_, ?_, by norm_num⟩
  · rw [(backend_reads_ok onlyBonkKey nineEmptyRpc BONK_TOKEN_ADDRESS _ (by decide) rfl).2.2.2,
      hval]
  · rw [(frontend_reads_ok nineEmptyRpc BONK_TOKEN_ADDRESS _ rfl).2.2.2, hval]
  · rw [nine_rents.2]; norm_num

/-- C24, amended: when the account query succeeds, `estimateReclaimableSol`
(backend and frontend) returns the number of accounts of amount 0 times
`0.002`, computed in binary64.  The result is 0 for no empty account and the
number `0.006` for three; it lies within two roundings of 2/1000 per account
but is not always the nearest number: for nine accounts it is
5188146770730812 / 2^58, one unit in the last place above the number `0.018`.
The wallet hook keeps `reclaimableSol` equal to `emptyAccounts.length * 0.002`
initially, after a refresh whatever its reads return, and after a wallet
disconnect. -/
theorem reclaimable_estimate (validKey : String → Bool) (rpc : Rpc)
    (walletAddress : String) (value : List ParsedAccount)
    (hv : validKey walletAddress = true)
    (hr : rpc.getParsedTokenAccountsByOwner walletAddress = .ok value) :
    (Backend.estimateReclaimableSol validKey rpc walletAddress).1 =
      .ok (jsMul ((filterEmpty (value.map formatTokenAccount)).length : ℚ) rentPerAccount) ∧
    (Frontend.estimateReclaimableSol rpc walletAddress).1 =
      .ok (jsMul ((filterEmpty (value.map formatTokenAccount)).length : ℚ) rentPerAccount) ∧
    (∀ emptyAccounts : List TokenAccount,
      (emptyAccounts.length = 0 → reclaimable emptyAccounts = 0) ∧
      (emptyAccounts.length = 3 → reclaimable emptyAccounts = fl (6 / 1000)) ∧
      (emptyAccounts.length = 9 →
        reclaimable emptyAccounts = 5188146770730812 / 2 ^ 58 ∧
        reclaimable emptyAccounts ≠ fl (18 / 1000)) ∧
      (emptyAccounts.length : ℚ) * (2 / 1000) * (1 - 1 / 2 ^ 52) ^ 2 ≤
        reclaimable emptyAccounts ∧
      reclaimable emptyAccounts ≤
        (emptyAccounts.length : ℚ) * (2 / 1000) * (1 + 1 / 2 ^ 52) ^ 2) ∧
    initialWallet.reclaimableSol = reclaimable initialWallet.emptyAccounts ∧
    (∀ (reads : WalletReads) (publicKey : Option String) (s : WalletState),
      s.reclaimableSol = reclaimable s.emptyAccounts →
      (fetchWalletData reads s).reclaimableSol =
        reclaimable (fetchWalletData reads s).emptyAccounts ∧
      (refreshData publicKey reads s).reclaimableSol =
        reclaimable (refreshData publicKey reads s).emptyAccounts ∧
      (walletDisconnected s).reclaimableSol = reclaimable (walletDisconnected s).emptyAccounts) := by
  have hzero : reclaimable [] = 0 := by simp [reclaimable, jsMul, fl]
  refine ⟨(backend_reads_ok validKey rpc walletAddress value hv hr).2.2.2,
    (frontend_reads_ok rpc walletAddress value hr).2.2.2, ?_, hzero.symm, ?_⟩
  · intro emptyAccounts
    refine ⟨?_, ?_, ?_, (reclaimable_near emptyAccounts).1, (reclaimable_near emptyAccounts).2⟩
    · intro h0
      rw [List.length_eq_zero.mp h0, hzero]
    · intro h3
      unfold reclaimable
      rw [h3]
      exact_mod_cast three_rents
    · intro h9
      have hval : reclaimable emptyAccounts = 5188146770730812 / 2 ^ 58 := by
        unfold reclaimable
        rw [h9]
        exact_mod_cast nine_rents.1
      refine ⟨hval, ?_⟩
      rw [hval, nine_rents.2]
      norm_num
  · intro reads publicKey s h
    refine ⟨fetchWalletData_reclaimable reads s h, ?_, ?_⟩
    · cases publicKey with
      | none => exact h
      | some pk => exact fetchWalletData_reclaimable reads s h
    · exact hzero.symm

/-- Witness of the amended C24 (scenario C): the estimate for the wallet with three empty
accounts. -/
theorem reclaimable_estimate_witness :
    (Backend.estimateReclaimableSol onlyBonkKey scenarioRpc BONK_TOKEN_ADDRESS).1 =
      .ok (jsMul ((filterEmpty (scenarioWallet.map formatTokenAccount)).length : ℚ)
        rentPerAccount) ∧
    reclaimable (filterEmpty (scenarioWallet.map formatTokenAccount)) = fl (6 / 1000) :=
  ⟨(reclaimable_estimate onlyBonkKey scenarioRpc BONK_TOKEN_ADDRESS scenarioWallet
      (by decide) rfl).1,
   ((reclaimable_estimate onlyBonkKey scenarioRpc BONK_TOKEN_ADDRESS scenarioWallet
      (by decide) rfl).2.2.1 (filterEmpty (scenarioWallet.map formatTokenAccount))).2.1
      (by decide)⟩


/-- The first account of the BONK mint decides `bonkAmount`. -/
theorem bonkAmount_first (before after : List TokenAccount) (account : TokenAccount)
    (hmint : account.mint = BONK_TOKEN_ADDRESS)
    (hbefore : ∀ b ∈ before, b.mint ≠ BONK_TOKEN_ADDRESS) :
    bonkAmount (before ++ account :: after) = account.amount := by
  have hf : (before ++ account :: after).find?
      (fun account => account.mint == BONK_TOKEN_ADDRESS) = some account := by
    induction before with
    | nil =>
      rw [List.nil_append]
      exact List.find?_cons_of_pos _ (by simp [hmint])
    | cons b t ih =>
      have hb : b.mint ≠ BONK_TOKEN_ADDRESS := hbefore b (List.mem_cons_self b t)
      rw [List.cons_append, List.find?_cons_of_neg _ (by simpa using hb)]
      exact ih (fun x hx => hbefore x (List.mem_cons_of_mem b hx))
  simp [bonkAmount, hf]

/-- No account of the BONK mint: `bonkAmount` is 0. -/
theorem bonkAmount_absent (allAccounts : List TokenAccount)
    (h : ∀ a ∈ allAccounts, a.mint ≠ BONK_TOKEN_ADDRESS) : bonkAmount allAccounts = some 0 := by
  have : allAccounts.find? (fun account => account.mint == BONK_TOKEN_ADDRESS) = none := by
    rw [List.find?_eq_none]
    intro a ha
    simpa using h a ha
  simp [bonkAmount, this]

/-- C25: when the account query succeeds, `getBonkBalance` (backend and
frontend) returns a value and does not fail: 0 when no account has the BONK
mint, and otherwise the amount of the first account of the list whose mint is
the BONK mint. -/
theorem bonk_balance (validKey : String → Bool) (rpc : Rpc) (walletAddress : String)
    (value : List ParsedAccount) (hv : validKey walletAddress = true)
    (hr : rpc.getParsedTokenAccountsByOwner walletAddress = .ok value) :
    (Backend.getBonkBalance validKey rpc walletAddress).1 =
      .ok (bonkAmount (value.map formatTokenAccount)) ∧
    (Frontend.getBonkBalance rpc walletAddress).1 =
      .ok (bonkAmount (value.map formatTokenAccount)) ∧
    ((∀ a ∈ value.map formatTokenAccount, a.mint ≠ BONK_TOKEN_ADDRESS) →
      bonkAmount (value.map formatTokenAccount) = some 0) ∧
    (∀ (before after : List TokenAccount) (account : TokenAccount),
      value.map formatTokenAccount = before ++ account :: after →
      account.mint = BONK_TOKEN_ADDRESS →
      (∀ b ∈ before, b.mint ≠ BONK_TOKEN_ADDRESS) →
      bonkAmount (value.map formatTokenAccount) = account.amount) := by
  refine ⟨(backend_reads_ok validKey rpc walletAddress value hv hr).2.2.1,
    (frontend_reads_ok rpc walletAddress value hr).2.2.1,
    bonkAmount_absent _, ?_⟩
  intro before after account hsplit hmint hbefore
  rw [hsplit]
  exact bonkAmount_first before after account hmint hbefore

/-- Witness of C25: the scenario wallet, whose second account holds 7 BONK. -/
theorem bonk_balance_witness :
    (Backend.getBonkBalance onlyBonkKey scenarioRpc BONK_TOKEN_ADDRESS).1 =
      .ok (bonkAmount (scenarioWallet.map formatTokenAccount)) ∧
    bonkAmount (scenarioWallet.map formatTokenAccount) = some 7 :=
  ⟨(bonk_balance onlyBonkKey scenarioRpc BONK_TOKEN_ADDRESS scenarioWallet (by decide) rfl).1,
   (bonk_balance onlyBonkKey scenarioRpc BONK_TOKEN_ADDRESS scenarioWallet
      (by decide) rfl).2.2.2
      [formatTokenAccount (parsedAccount "acc-1" "mint-1" (some 0))]
      [formatTokenAccount (parsedAccount "acc-3" "mint-3" (some 0)),
       formatTokenAccount (parsedAccount "acc-4" "mint-4" (some 0))]
      (formatTokenAccount (parsedAccount "acc-2" BONK_TOKEN_ADDRESS (some 7)))
      rfl rfl (by decide)⟩

/-! ### The wallet hook, the key status and the Steel session -/

/-- C26, refuted as stated: the hook holds a snapshot with 1 SOL and four token
accounts; a refresh whose balance read answers 5 SOL and whose token-account
read is rejected leaves the new balance next to the old token accounts, BONK
balance, empty accounts and estimate. -/
theorem refresh_leaves_a_mix :
    fetchWalletData brokenReads oldWallet =
      { oldWallet with solBalance := 5, error := some "rpc down" } ∧
    (fetchWalletData brokenReads oldWallet).solBalance ≠ oldWallet.solBalance ∧
    (fetchWalletData brokenReads oldWallet).tokenAccounts = oldWallet.tokenAccounts ∧
    refreshData (some "wallet") brokenReads oldWallet =
      { oldWallet with solBalance := 5, error := some "rpc down" } := by
  have e : fetchWalletData brokenReads oldWallet =
      { oldWallet with solBalance := 5, error := some "rpc down" } := by
    simp [fetchWalletData, brokenReads, refreshFailed, oldWallet]
  refine ⟨e, ?_, ?_, e⟩
  · rw [e]; simp [oldWallet]
  · rw [e]

/-- C26, amended: a refresh writes each field as soon as its read has
succeeded.  When all four reads succeed the five fields hold the new snapshot;
when a read is rejected, the fields of the reads before it hold the new values,
the fields of that read and of the later ones keep their old values, and the
error is the message of the rejection.  `emptyAccounts` and `reclaimableSol`
are always written together. -/
theorem refresh_is_sequential (reads : WalletReads) (s : WalletState) :
    (∀ balance accounts bonk empty, reads.getSolBalance = .ok balance →
      reads.getTokenAccounts = .ok accounts → reads.getBonkBalance = .ok bonk →
      reads.getEmptyAccounts = .ok empty →
      fetchWalletData reads s =
        { solBalance := balance, bonkBalance := bonk, tokenAccounts := accounts,
          emptyAccounts := empty, reclaimableSol := reclaimable empty, isLoading := false,
          error := none }) ∧
    (∀ e, reads.getSolBalance = .error e →
      fetchWalletData reads s = { s with error := some e.message, isLoading := false }) ∧
    (∀ balance e, reads.getSolBalance = .ok balance → reads.getTokenAccounts = .error e →
      fetchWalletData reads s =
        { s with solBalance := balance, error := some e.message, isLoading := false }) ∧
    (∀ balance accounts e, reads.getSolBalance = .ok balance →
      reads.getTokenAccounts = .ok accounts → reads.getBonkBalance = .error e →
      fetchWalletData reads s =
        { s with solBalance := balance, tokenAccounts := accounts,
                 isLoading := false, error := some e.message }) ∧
    (∀ balance accounts bonk e, reads.getSolBalance = .ok balance →
      reads.getTokenAccounts = .ok accounts → reads.getBonkBalance = .ok bonk →
      reads.getEmptyAccounts = .error e →
      fetchWalletData reads s =
        { s with solBalance := balance, tokenAccounts := accounts, bonkBalance := bonk,
                 isLoading := false, error := some e.message }) ∧
    (∀ pk, refreshData (some pk) reads s = fetchWalletData reads s) ∧
    refreshData none reads s = s := by
  refine ⟨?_, ?_, ?_, ?_, ?_, fun _ => rfl, rfl⟩
  · intro balance accounts bonk empty h1 h2 h3 h4
    simp [fetchWalletData, h1, h2, h3, h4]
  · intro e h1
    simp [fetchWalletData, h1, refreshFailed]
  · intro balance e h1 h2
    simp [fetchWalletData, h1, h2, refreshFailed]
  · intro balance accounts e h1 h2 h3
    simp [fetchWalletData, h1, h2, h3, refreshFailed]
  · intro balance accounts bonk e h1 h2 h3 h4
    simp [fetchWalletData, h1, h2, h3, h4, refreshFailed]

/-- Witness of the amended C26: a refresh all of whose reads succeed. -/
theorem refresh_is_sequential_witness :
    fetchWalletData emptyWalletReads oldWallet =
      { solBalance := 5, bonkBalance := some 0, tokenAccounts := [], emptyAccounts := [],
        reclaimableSol := reclaimable [], isLoading := false, error := none } :=
  (refresh_is_sequential emptyWalletReads oldWallet).1 5 [] (some 0) [] rfl rfl rfl rfl

/-- C27: the `/auth/status` response is seven booleans that depend only on
which variables are set to a non-empty value: two configurations that agree on
that give the same response, whatever the key values are; the `browserbase`
entry is true exactly when both the Browserbase key and project id are set. -/
theorem auth_status_hides_values (c1 c2 : ServerConfig)
    (h : truthyOpt c1.BROWSER_USE_API_KEY = truthyOpt c2.BROWSER_USE_API_KEY ∧
      truthyOpt c1.STEEL_API_KEY = truthyOpt c2.STEEL_API_KEY ∧
      truthyOpt c1.OPENAI_API_KEY = truthyOpt c2.OPENAI_API_KEY ∧
      truthyOpt c1.FAL_API_KEY = truthyOpt c2.FAL_API_KEY ∧
      truthyOpt c1.XAI_API_KEY = truthyOpt c2.XAI_API_KEY ∧
      truthyOpt c1.BROWSERBASE_API_KEY = truthyOpt c2.BROWSERBASE_API_KEY ∧
      truthyOpt c1.BROWSERBASE_PROJECT_ID = truthyOpt c2.BROWSERBASE_PROJECT_ID ∧
      truthyOpt c1.ANTHROPIC_API_KEY = truthyOpt c2.ANTHROPIC_API_KEY) :
    authStatus c1 = authStatus c2 ∧
    ((authStatus c1).browserbase = true ↔
      (truthyOpt c1.BROWSERBASE_API_KEY = true ∧
        truthyOpt c1.BROWSERBASE_PROJECT_ID = true)) := by
  obtain ⟨h1, h2, h3, h4, h5, h6, h7, h8⟩ := h
  constructor
  · simp [authStatus, h1, h2, h3, h4, h5, h6, h7, h8]
  · simp [authStatus]

/-- Witness of C27: every key set, to `key-1` in one configuration and to
`key-2` in the other. -/
theorem auth_status_hides_values_witness :
    authStatus (uniformConfig "key-1") = authStatus (uniformConfig "key-2") :=
  (auth_status_hides_values (uniformConfig "key-1") (uniformConfig "key-2")
    ⟨by decide, by decide, by decide, by decide, by decide, by decide, by decide,
      by decide⟩).1

/-- C28, refuted as stated: with the same upstream answer, the keys `key-1`
and `key-2` give different bodies of `POST /steel/sessions`: the `cdp_url`
member carries the key. -/
theorem steel_session_carries_key :
    postSteelSessions (some "key-1") (.ok upstreamSession) =
      (200, .session
        { id := "s-1", members := [("status", "live")],
          cdp_url := "wss://connect.steel.dev?apiKey=key-1&sessionId=s-1" }) ∧
    postSteelSessions (some "key-1") (.ok upstreamSession) ≠
      postSteelSessions (some "key-2") (.ok upstreamSession) := by
  refine ⟨by decide, by decide⟩

/-- C28, amended: the session `createSession` returns, which
`POST /steel/sessions` sends as its body, is the upstream answer with the
member `cdp_url` set to a URL that spells out `STEEL_API_KEY`; the other
members do not depend on the key, and when the upstream call is rejected the
response does not depend on it either. -/
theorem steel_session_body (key1 key2 : Option String) (data : SteelUpstreamSession)
    (err : ServiceError) :
    postSteelSessions key1 (.ok data) =
      (200, .session
        { id := data.id, members := data.members,
          cdp_url := "wss://connect.steel.dev?apiKey=" ++ interpolate key1 ++
            "&sessionId=" ++ data.id }) ∧
    createSession key1 (.ok data) =
      .ok
        { id := data.id, members := data.members,
          cdp_url := "wss://connect.steel.dev?apiKey=" ++ interpolate key1 ++
            "&sessionId=" ++ data.id } ∧
    postSteelSessions key1 (.error err) = postSteelSessions key2 (.error err) ∧
    (postSteelSessions key1 (.ok data) = postSteelSessions key2 (.ok data) ↔
      interpolate key1 = interpolate key2) := by
  refine ⟨rfl, rfl, rfl, ?_⟩
  constructor
  · intro h
    simp only [postSteelSessions, createSession, Prod.mk.injEq, SteelBody.session.injEq,
      SteelSession.mk.injEq, true_and] at h
    have h2 := congrArg String.data h
    simp only [String.data_append, List.append_assoc] at h2
    have h3 := List.append_cancel_left h2
    have h4 := List.append_cancel_right h3
    exact String.ext h4
  · intro h
    simp [postSteelSessions, createSession, h]

end BonkAgent
